import Mathlib

/-!
# crosscut: the business-process orchestration engine

A shallow embedding of `src/crosscut-bpo/main.go`, followed by the parts of
the two mock collaborators, `src/mock-plm-service/main.go` and
`src/mock-docgen-service/main.go`, that the properties below are about.

Modelling conventions.

* The process talks to three things outside itself: the file system (the
  audit store), the network (the two collaborators) and the clock.  What has
  happened so far is the `World`; what the outside answers is the `Env`.
  Every function of the service takes the world and returns the new one.
* A Go result pair `(*T, error)` of which exactly one side is non-nil is an
  `Except GoError T`.
* Go strings are Unicode text.
* `encoding/json` is not modelled byte by byte.  A request on the wire is
  represented by the value it serialises (`Request`).  The audit file is a
  list of entries whose details are JSON values (`Json`), with every number
  the exact value of its literal; reading decodes the details into Go values
  (a number becomes a float64) and writing encodes them again.  How a literal
  becomes a float64 and a float64 a literal is `strconv`, taken from the
  outside (`Env.parseFloat`, `Env.formatFloat`).  Bytes that the decoder
  rejects are carried as text.
-/

namespace Crosscut
namespace BPO

/-! ## Go values -/

/-- A Go `error`.  `errorf` is `fmt.Errorf` without `%w`; `wrapf lead inner`
is `fmt.Errorf(lead + "%w", inner)`, which keeps `inner` reachable through
`errors.Unwrap`. -/
inductive GoError where
  | errorf (text : String)
  | wrapf (lead : String) (inner : GoError)
deriving DecidableEq, Repr

/-- The method `Error()`: the message text. -/
def GoError.Error : GoError → String
  | .errorf text => text
  | .wrapf lead inner => lead ++ inner.Error

/-- The function `errors.Unwrap`. -/
def GoError.Unwrap : GoError → Option GoError
  | .errorf _ => none
  | .wrapf _ inner => some inner

/-- A `time.Time` reading: seconds since the epoch and the nanoseconds within
the second. -/
structure Time where
  sec : Int
  nsec : Nat
deriving DecidableEq, Repr

/-- The method `Unix()`. -/
def Time.Unix (t : Time) : Int := t.sec

/-- ComponentTemplate represents a component template needing enrichment. -/
structure ComponentTemplate where
  Name : String
  Voltage : String
deriving DecidableEq, Repr

/-- TemplatePlan represents a document plan template. -/
structure TemplatePlan where
  Product : String
  Components : List ComponentTemplate
deriving DecidableEq, Repr

/-- EnrichedComponent represents a component with resolved voltage. -/
structure EnrichedComponent where
  Name : String
  Voltage : String
deriving DecidableEq, Repr

/-- EnrichedPlan represents the enriched plan from PLM. -/
structure EnrichedPlan where
  Product : String
  Components : List EnrichedComponent
deriving DecidableEq, Repr

/-- A value of type `interface{}`: what `encoding/json` decodes into it (nil,
bool, float64, string, slice, map) and the Go values this program stores in
such a slot itself (an int, a template plan, a pointer to an enriched plan).
A `map[string]interface{}` is an association list read by its first match. -/
inductive Any where
  | null
  | bool (b : Bool)
  | float64 (x : Rat)
  | str (s : String)
  | slice (xs : List Any)
  | map (kvs : List (String × Any))
  | int (n : Int)
  | template (t : TemplatePlan)
  | enrichedPlan (p : EnrichedPlan)

/-- A `map[string]interface{}`; the nil map is the empty list. -/
abbrev GoMap := List (String × Any)

/-- Indexing a map, `m[key]`: the value and whether the key is present. -/
def GoMap.get (m : GoMap) (key : String) : Option Any :=
  match m.find? (fun kv => kv.1 == key) with
  | some kv => some kv.2
  | none => none

/-- The type assertion `m[key].(string)`: the string and `ok = true`, or
`none` for `ok = false` (key absent, or the value is not a string). -/
def GoMap.getString (m : GoMap) (key : String) : Option String :=
  match m.get key with
  | some (.str s) => some s
  | _ => none

/-- WorkflowRequest represents an incoming workflow trigger. -/
structure WorkflowRequest where
  TriggerEvent : String
  Payload : GoMap

/-- WorkflowResponse represents the response from workflow execution. -/
structure WorkflowResponse where
  Status : String
  WorkflowID : String
  Message : String
  DocumentURL : String
deriving DecidableEq, Repr

/-- AuditEntry represents an entry in the audit log.  `Details = []` and
`Error = ""` are the omitted fields. -/
structure AuditEntry where
  Timestamp : Time
  WorkflowID : String
  Event : String
  Action : String
  Status : String
  Details : GoMap
  Error : String

/-- DocProps represents document metadata. -/
structure DocProps where
  Filename : String
deriving DecidableEq, Repr

/-- ComponentInstance represents a component instance in the document. -/
structure ComponentInstance where
  Component : String
  Props : GoMap

/-- DocumentPlan represents the final document plan for DocGen. -/
structure DocumentPlan where
  DocProps : Option DocProps
  Body : List ComponentInstance

/-- DocGenResponse represents response from DocGen service. -/
structure DocGenResponse where
  Status : String
  URL : String
  Filename : String
  GenerationTimeMs : Int
  ComponentsRendered : Int
deriving DecidableEq, Repr

/-- BPOService handles business process orchestration. -/
structure BPOService where
  auditLogPath : String
  plmServiceURL : String
  docgenServiceURL : String
deriving DecidableEq, Repr

/-- NewBPOService creates a new BPO service instance. -/
def NewBPOService (auditLogPath plmServiceURL docgenServiceURL : String) : BPOService :=
  { auditLogPath := auditLogPath
    plmServiceURL := plmServiceURL
    docgenServiceURL := docgenServiceURL }

/-! ## The outside: files, network, clock -/

/-- A JSON value as it stands in a file.  A number is the exact value of its
literal.  An object is the list of its members: their order carries no
meaning and their keys are distinct.  The `null` and the `[]` that Go writes
for an empty slice are both `array []`. -/
inductive Json where
  | null
  | bool (b : Bool)
  | number (q : Rat)
  | str (s : String)
  | array (xs : List Json)
  | object (kvs : List (String × Json))

/-- An audit entry as it stands in the file: the fields of `AuditEntry`, with
the details as JSON.  `Details = []` and `Error = ""` are the omitted
fields. -/
structure StoredEntry where
  Timestamp : Time
  WorkflowID : String
  Event : String
  Action : String
  Status : String
  Details : List (String × Json)
  Error : String

/-- The content of a file of the audit store: either the indented JSON of a
list of entries, or bytes that `json.Unmarshal` rejects with the error `why`
(the empty file is `garbage "" why`; a file with a number outside the range
of float64 is rejected too). -/
inductive FileData where
  | entries (es : List StoredEntry)
  | garbage (bytes : String) (why : GoError)

/-- The test `len(data) > 0`; the JSON of a list is never empty. -/
def FileData.nonEmpty : FileData → Bool
  | .entries _ => true
  | .garbage bytes _ => !bytes.isEmpty

/-- The body of an outbound request, represented by the value `json.Marshal`
serialises. -/
inductive Request where
  | enrich (template : TemplatePlan)
  | generate (plan : DocumentPlan)

/-- The call `json.Marshal(v)` on a request value; the request types of this
program always encode. -/
def jsonMarshal (v : Request) : Except GoError Request := .ok v

/-- One `http.Post(url, contentType, body)`. -/
structure HttpCall where
  url : String
  contentType : String
  body : Request

/-- What `http.Post` gives back: a transport error, or a response with its
status code and body bytes. -/
inductive HttpResult where
  | transportError (err : GoError)
  | response (StatusCode : Nat) (Body : String)

/-- What `os.WriteFile` does: it succeeds, or fails with an error and leaves
`left` in the file. -/
inductive WriteOutcome where
  | ok
  | failed (err : GoError) (left : Option FileData)

/-- The constant `http.StatusOK`. -/
def StatusOK : Nat := 200

/-- The constant `http.StatusBadRequest`. -/
def StatusBadRequest : Nat := 400

/-- The constant `http.StatusInternalServerError`. -/
def StatusInternalServerError : Nat := 500

/-- Everything the outside decides.  `post` sees the requests issued before
it, so a collaborator may answer differently over time. -/
structure Env where
  /-- The function `filepath.Abs`. -/
  abs : String → Except GoError String
  /-- The reading of the k-th call of `time.Now()`. -/
  now : Nat → Time
  /-- The outcome of the k-th call of `os.WriteFile`. -/
  writeFile : Nat → WriteOutcome
  /-- The function `http.Post`, given the earlier calls, the URL and the body. -/
  post : List HttpCall → String → Request → HttpResult
  /-- Decoding a response body into an `EnrichedPlan`. -/
  decodeEnriched : String → Except GoError EnrichedPlan
  /-- Decoding a response body into a `DocGenResponse`. -/
  decodeDocGen : String → Except GoError DocGenResponse
  /-- Decoding an inbound request body into a `WorkflowRequest`. -/
  decodeRequest : String → Except GoError WorkflowRequest
  /-- The function `strconv.ParseFloat` on a number literal of a file: the
  float64 nearest to the value of the literal. -/
  parseFloat : Rat → Rat
  /-- The literal `encoding/json` writes for a float64: the shortest decimal
  that reads back as that float64. -/
  formatFloat : Rat → Rat

/-- Everything that has happened so far. -/
structure World where
  /-- The file system: `none` is a file that `os.ReadFile` cannot read. -/
  files : String → Option FileData
  /-- How many times the clock has been read. -/
  ticks : Nat
  /-- How many times `os.WriteFile` has been called. -/
  writes : Nat
  /-- The outbound requests issued, oldest first. -/
  calls : List HttpCall
  /-- The lines given to `log.Printf`, oldest first. -/
  log : List String

/-- The call `log.Printf` with the formatted line. -/
def World.logf (w : World) (line : String) : World :=
  { w with log := w.log ++ [line] }

/-- The call `time.Now()`. -/
def timeNow (env : Env) (w : World) : Time × World :=
  (env.now w.ticks, { w with ticks := w.ticks + 1 })

/-- The call `os.ReadFile(path)`; `none` when it returns an error. -/
def osReadFile (w : World) (path : String) : Option FileData :=
  w.files path

/-- The call `os.WriteFile(path, data, 0644)`. -/
def osWriteFile (env : Env) (path : String) (data : FileData) (w : World) :
    Option GoError × World :=
  match env.writeFile w.writes with
  | .ok =>
    (none, { w with writes := w.writes + 1, files := Function.update w.files path (some data) })
  | .failed err left =>
    (some err, { w with writes := w.writes + 1, files := Function.update w.files path left })

/-- The call `http.Post(url, "application/json", body)`. -/
def httpPost (env : Env) (url : String) (body : Request) (w : World) : HttpResult × World :=
  (env.post w.calls url body,
   { w with calls := w.calls ++ [{ url := url, contentType := "application/json", body := body }] })

/-! ## The service -/

/-- generateWorkflowID generates a unique workflow ID:
`fmt.Sprintf("wf-%d", time.Now().Unix())`. -/
def generateWorkflowID (env : Env) (w : World) : String × World :=
  let (t, w) := timeNow env w
  ("wf-" ++ toString t.Unix, w)

/-- The JSON that `json.Marshal` writes for a TemplatePlan. -/
def TemplatePlan.toJson (t : TemplatePlan) : Json :=
  .object [("product", .str t.Product),
           ("components", .array (t.Components.map fun c =>
              .object [("name", .str c.Name), ("voltage", .str c.Voltage)]))]

/-- The JSON that `json.Marshal` writes for an EnrichedPlan. -/
def EnrichedPlan.toJson (p : EnrichedPlan) : Json :=
  .object [("product", .str p.Product),
           ("components", .array (p.Components.map fun c =>
              .object [("name", .str c.Name), ("voltage", .str c.Voltage)]))]

mutual
/-- The JSON that `json.Marshal` writes for a value of type `interface{}`: a
Go int is written exactly, a float64 as `formatFloat` prints it. -/
def Any.toJson (env : Env) : Any → Json
  | .null => .null
  | .bool b => .bool b
  | .float64 x => .number (env.formatFloat x)
  | .str s => .str s
  | .slice xs => .array (toJsonList env xs)
  | .map kvs => .object (toJsonFields env kvs)
  | .int n => .number n
  | .template t => t.toJson
  | .enrichedPlan p => p.toJson
/-- The JSON of the elements of a slice. -/
def toJsonList (env : Env) : List Any → List Json
  | [] => []
  | x :: xs => x.toJson env :: toJsonList env xs
/-- The JSON of the members of a map. -/
def toJsonFields (env : Env) : List (String × Any) → List (String × Json)
  | [] => []
  | (k, v) :: rest => (k, v.toJson env) :: toJsonFields env rest
end

mutual
/-- What `json.Unmarshal` stores in a slot of type `interface{}` for a JSON
value: a number becomes the float64 `parseFloat` reads, an array a slice, an
object a map. -/
def Json.decode (env : Env) : Json → Any
  | .null => .null
  | .bool b => .bool b
  | .number q => .float64 (env.parseFloat q)
  | .str s => .str s
  | .array xs => .slice (decodeList env xs)
  | .object kvs => .map (decodeFields env kvs)
/-- The decoded elements of an array. -/
def decodeList (env : Env) : List Json → List Any
  | [] => []
  | x :: xs => x.decode env :: decodeList env xs
/-- The decoded members of an object. -/
def decodeFields (env : Env) : List (String × Json) → List (String × Any)
  | [] => []
  | (k, v) :: rest => (k, v.decode env) :: decodeFields env rest
end

/-- The JSON object `json.MarshalIndent` writes for one entry. -/
def AuditEntry.toStored (env : Env) (e : AuditEntry) : StoredEntry :=
  { Timestamp := e.Timestamp, WorkflowID := e.WorkflowID, Event := e.Event,
    Action := e.Action, Status := e.Status, Details := toJsonFields env e.Details,
    Error := e.Error }

/-- The entry `json.Unmarshal` builds from one JSON object of the file: the
details are decoded into a `map[string]interface{}`. -/
def StoredEntry.toEntry (env : Env) (e : StoredEntry) : AuditEntry :=
  { Timestamp := e.Timestamp, WorkflowID := e.WorkflowID, Event := e.Event,
    Action := e.Action, Status := e.Status, Details := decodeFields env e.Details,
    Error := e.Error }

/-- The call `json.Unmarshal(data, &entries)`. -/
def jsonUnmarshal (env : Env) : FileData → Except GoError (List AuditEntry)
  | .entries es => .ok (es.map (StoredEntry.toEntry env))
  | .garbage _ why => .error why

/-- The call `json.MarshalIndent(entries, "", "  ")`.  The entries this
program holds are made of strings, numbers and structs of strings, which
always encode. -/
def jsonMarshalIndent (env : Env) (entries : List AuditEntry) : Except GoError FileData :=
  .ok (.entries (entries.map (AuditEntry.toStored env)))

/-- The entries `writeAuditEntry` starts from: the file is read and parsed; a
file that cannot be read or is empty leaves the nil slice, a file that does
not parse is logged and gives the empty slice. -/
def readExisting (env : Env) (absPath : String) (w : World) : List AuditEntry × World :=
  match osReadFile w absPath with
  | some data =>
    if data.nonEmpty then
      match jsonUnmarshal env data with
      | .error err =>
        ([], w.logf ("Warning: failed to unmarshal existing audit log: " ++ err.Error))
      | .ok entries => (entries, w)
    else ([], w)
  | none => ([], w)

/-- writeAuditEntry writes an entry to the audit log; `none` is the nil
error. -/
def writeAuditEntry (env : Env) (s : BPOService) (entry : AuditEntry) (w : World) :
    Option GoError × World :=
  match env.abs s.auditLogPath with
  | .error err => (some (.wrapf "failed to get absolute path: " err), w)
  | .ok absPath =>
    -- Read existing entries
    let (entries, w) := readExisting env absPath w
    -- Append new entry
    let entries := entries ++ [entry]
    -- Write back to file
    match jsonMarshalIndent env entries with
    | .error err => (some (.wrapf "failed to marshal audit entries: " err), w)
    | .ok data =>
      match osWriteFile env absPath data w with
      | (some err, w) => (some (.wrapf "failed to write audit log: " err), w)
      | (none, w) => (none, w)

/-- consultPLM consults the PLM service for plan enrichment. -/
def consultPLM (env : Env) (s : BPOService) (template : TemplatePlan) (w : World) :
    Except GoError EnrichedPlan × World :=
  let url := s.plmServiceURL ++ "/enrich-plan"
  match jsonMarshal (.enrich template) with
  | .error err => (.error (.wrapf "failed to marshal template: " err), w)
  | .ok jsonData =>
    match httpPost env url jsonData w with
    | (.transportError err, w) => (.error (.wrapf "failed to call PLM service: " err), w)
    | (.response StatusCode Body, w) =>
      if StatusCode ≠ StatusOK then
        (.error (.errorf ("PLM service returned " ++ toString StatusCode ++ ": " ++ Body)), w)
      else
        match env.decodeEnriched Body with
        | .error err => (.error (.wrapf "failed to decode PLM response: " err), w)
        | .ok enriched => (.ok enriched, w)

/-- commandDocGen commands the DocGen service to generate a document. -/
def commandDocGen (env : Env) (s : BPOService) (plan : DocumentPlan) (w : World) :
    Except GoError DocGenResponse × World :=
  let url := s.docgenServiceURL ++ "/generate"
  match jsonMarshal (.generate plan) with
  | .error err => (.error (.wrapf "failed to marshal document plan: " err), w)
  | .ok jsonData =>
    match httpPost env url jsonData w with
    | (.transportError err, w) => (.error (.wrapf "failed to call DocGen service: " err), w)
    | (.response StatusCode Body, w) =>
      if StatusCode ≠ StatusOK then
        (.error (.errorf ("DocGen service returned " ++ toString StatusCode ++ ": " ++ Body)), w)
      else
        match env.decodeDocGen Body with
        | .error err => (.error (.wrapf "failed to decode DocGen response: " err), w)
        | .ok response => (.ok response, w)

/-- The statement that recurs in the workflow,
`if err := s.writeAuditEntry(entry); err != nil { log.Printf(...) }`:
the entry is written and a failure is only logged. -/
def auditOrLog (env : Env) (s : BPOService) (entry : AuditEntry) (w : World) : World :=
  match writeAuditEntry env s entry w with
  | (some err, w) => w.logf ("Failed to write audit entry: " ++ err.Error)
  | (none, w) => w

/-- The template plan of step 2: one component "PowerTest", unresolved. -/
def templateFor (productName : String) : TemplatePlan :=
  { Product := productName
    Components := [{ Name := "PowerTest", Voltage := "UNRESOLVED" }] }

/-- The first instance of the document body. -/
def titleInstance (productName revision : String) : ComponentInstance :=
  { Component := "DocumentTitle"
    Props := [("document_title", .str "Design Verification Test Procedure"),
              ("product_name", .str productName),
              ("revision", .str revision)] }

/-- The instance appended for one enriched component. -/
def testBlock (productName : String) (comp : EnrichedComponent) : ComponentInstance :=
  { Component := "TestBlock"
    Props := [("test_name", .str comp.Name),
              ("voltage", .str comp.Voltage),
              ("product_name", .str productName),
              ("description", .str "Validate power supply voltage requirements")] }

/-- Step 4, build document plan: the filename, the title instance, and the
loop that appends one TestBlock per enriched component. -/
def buildDocumentPlan (productName revision : String) (enriched : EnrichedPlan) : DocumentPlan :=
  let filename := productName ++ "-DVT-Procedure-Rev-" ++ revision
  let documentPlan : DocumentPlan :=
    { DocProps := some { Filename := filename }
      Body := [titleInstance productName revision] }
  enriched.Components.foldl
    (fun plan comp => { plan with Body := plan.Body ++ [testBlock productName comp] })
    documentPlan

/-- executeSchematicReleasedWorkflow executes the schematic released
workflow. -/
def executeSchematicReleasedWorkflow (env : Env) (s : BPOService) (workflowID : String)
    (payload : GoMap) (w : World) : Except GoError WorkflowResponse × World :=
  -- Extract product information
  match payload.getString "product_name" with
  | none => (.error (.errorf "product_name is required in payload"), w)
  | some productName =>
    let revision :=
      match payload.getString "revision" with
      | some r => r
      | none => "A"
    -- Step 1: Start workflow
    let (t, w) := timeNow env w
    let w := auditOrLog env s
      { Timestamp := t, WorkflowID := workflowID, Event := "schematic.released",
        Action := "workflow_started", Status := "success",
        Details := [("product_name", .str productName), ("revision", .str revision)],
        Error := "" } w
    -- Step 2: Generate template plan
    let template := templateFor productName
    let (t, w) := timeNow env w
    let w := auditOrLog env s
      { Timestamp := t, WorkflowID := workflowID, Event := "schematic.released",
        Action := "template_plan_generated", Status := "success",
        Details := [("template", .template template)],
        Error := "" } w
    -- Step 3: Consult PLM for enrichment
    match consultPLM env s template w with
    | (.error err, w) =>
      let (t, w) := timeNow env w
      let w := auditOrLog env s
        { Timestamp := t, WorkflowID := workflowID, Event := "schematic.released",
          Action := "plm_consultation", Status := "failed",
          Details := [], Error := err.Error } w
      (.error (.wrapf "PLM consultation failed: " err), w)
    | (.ok enriched, w) =>
      let (t, w) := timeNow env w
      let w := auditOrLog env s
        { Timestamp := t, WorkflowID := workflowID, Event := "schematic.released",
          Action := "plm_consultation", Status := "success",
          Details := [("enriched_plan", .enrichedPlan enriched)],
          Error := "" } w
      -- Step 4: Build document plan
      let documentPlan := buildDocumentPlan productName revision enriched
      -- Step 5: Command DocGen service
      match commandDocGen env s documentPlan w with
      | (.error err, w) =>
        let (t, w) := timeNow env w
        let w := auditOrLog env s
          { Timestamp := t, WorkflowID := workflowID, Event := "schematic.released",
            Action := "docgen_command", Status := "failed",
            Details := [], Error := err.Error } w
        (.error (.wrapf "DocGen command failed: " err), w)
      | (.ok docGenResponse, w) =>
        let (t, w) := timeNow env w
        let w := auditOrLog env s
          { Timestamp := t, WorkflowID := workflowID, Event := "schematic.released",
            Action := "docgen_command", Status := "success",
            Details := [("document_url", .str docGenResponse.URL),
                        ("filename", .str docGenResponse.Filename),
                        ("generation_time_ms", .int docGenResponse.GenerationTimeMs)],
            Error := "" } w
        -- Step 6: Complete workflow
        let (t, w) := timeNow env w
        let w := auditOrLog env s
          { Timestamp := t, WorkflowID := workflowID, Event := "schematic.released",
            Action := "workflow_completed", Status := "success",
            Details := [("final_document_url", .str docGenResponse.URL)],
            Error := "" } w
        (.ok { Status := "success", WorkflowID := workflowID,
               Message := "Workflow completed successfully",
               DocumentURL := docGenResponse.URL }, w)

/-- What the handler writes as the JSON body: an error map with the keys
"error" and "message", or the workflow response. -/
inductive ResponseBody where
  | errorBody (error : String) (message : String)
  | workflow (response : WorkflowResponse)
deriving DecidableEq, Repr

/-- The HTTP response of the handler; the status is 200 unless `WriteHeader`
is called. -/
structure HttpResponse where
  status : Nat
  body : ResponseBody
deriving DecidableEq, Repr

/-- The handler that setupRoutes installs for `POST /v1/execute-workflow`,
run on the bytes of the request body. -/
def executeWorkflowHandler (env : Env) (s : BPOService) (body : String) (w : World) :
    HttpResponse × World :=
  match env.decodeRequest body with
  | .error err =>
    let w := w.logf ("Failed to decode request: " ++ err.Error)
    ({ status := StatusBadRequest,
       body := .errorBody "invalid_request" "Failed to decode JSON request" }, w)
  | .ok request =>
    let (workflowID, w) := generateWorkflowID env w
    let w := w.logf ("Executing workflow " ++ workflowID ++ " for event: " ++ request.TriggerEvent)
    let (result, w) :=
      if request.TriggerEvent = "schematic.released" then
        executeSchematicReleasedWorkflow env s workflowID request.Payload w
      else
        (.error (.errorf ("unknown trigger event: " ++ request.TriggerEvent)), w)
    match result with
    | .error err =>
      let w := w.logf ("Workflow execution failed: " ++ err.Error)
      ({ status := StatusInternalServerError,
         body := .errorBody "workflow_failed" err.Error }, w)
    | .ok response =>
      let w := w.logf ("Workflow " ++ workflowID ++ " completed successfully")
      ({ status := StatusOK, body := .workflow response }, w)

/-- The file at the path the service writes its audit log to, if the path
resolves. -/
def auditStore (env : Env) (s : BPOService) (w : World) : Option FileData :=
  match env.abs s.auditLogPath with
  | .ok absPath => w.files absPath
  | .error _ => none

/-- The stored entries `writeAuditEntry` reads from a file: those of a file
that parses, none from a file that is missing, empty or does not parse. -/
def storedOf : Option FileData → List StoredEntry
  | some (.entries es) => es
  | _ => []

/-- What one read and rewrite of the file makes of a stored entry: the
details are decoded into Go values and encoded again. -/
def reread (env : Env) (e : StoredEntry) : StoredEntry :=
  (e.toEntry env).toStored env

/-- What `k` successive reads and rewrites make of the stored entries. -/
def rewritten (env : Env) : Nat → List StoredEntry → List StoredEntry
  | 0, L => L
  | k + 1, L => rewritten env k (L.map (reread env))

mutual
/-- A JSON value all of whose numbers read back as themselves: the literal
that is written for the float64 of the number is the number. -/
def Json.exact (env : Env) : Json → Prop
  | .null => True
  | .bool _ => True
  | .number q => env.formatFloat (env.parseFloat q) = q
  | .str _ => True
  | .array xs => exactList env xs
  | .object kvs => exactFields env kvs
/-- The elements of an array all read back as themselves. -/
def exactList (env : Env) : List Json → Prop
  | [] => True
  | x :: xs => x.exact env ∧ exactList env xs
/-- The members of an object all read back as themselves. -/
def exactFields (env : Env) : List (String × Json) → Prop
  | [] => True
  | (_, v) :: rest => v.exact env ∧ exactFields env rest
end

/-- The shift that brings a natural number below 2^53: the least `s`, from
`s` on and within the fuel, with `a < 2^(s+53)`. -/
def float64Shift (a : Nat) : Nat → Nat → Nat
  | 0, s => s
  | fuel + 1, s => if a < 2 ^ (s + 53) then s else float64Shift a fuel (s + 1)

/-- The float64 nearest to a natural number within the range of float64: the
number rounded to 53 significant bits, a tie going to the even significand.
Below 2^53 this is the number itself. -/
def roundFloat64Nat (a : Nat) : Nat :=
  let shift := float64Shift a 1024 0
  let q := a / 2 ^ shift
  let r := a % 2 ^ shift
  let q := if 2 * r > 2 ^ shift ∨ (2 * r = 2 ^ shift ∧ q % 2 = 1) then q + 1 else q
  q * 2 ^ shift

/-- The float64 nearest to an integer. -/
def roundFloat64 (n : Int) : Int :=
  if n < 0 then -(roundFloat64Nat n.natAbs : Int) else (roundFloat64Nat n.natAbs : Int)

/-- The requests issued since the world `w`, given the later world. -/
def callsSince (w later : World) : List HttpCall :=
  later.calls.drop w.calls.length

/-- The request consultPLM issues for a template. -/
def plmCall (s : BPOService) (template : TemplatePlan) : HttpCall :=
  { url := s.plmServiceURL ++ "/enrich-plan", contentType := "application/json",
    body := .enrich template }

/-- The request commandDocGen issues for a plan. -/
def docgenCall (s : BPOService) (plan : DocumentPlan) : HttpCall :=
  { url := s.docgenServiceURL ++ "/generate", contentType := "application/json",
    body := .generate plan }

/-! ## A concrete scenario

The end-to-end scenario of the specification: product "WidgetX", revision
"B", with variants in which a collaborator or the disk is down. -/

namespace Scenario

/-- The service under its default configuration. -/
def svc : BPOService :=
  NewBPOService "/app/data/audit-log.json" "http://localhost:8081" "http://localhost:8082"

/-- The enriched plan the PLM collaborator answers with. -/
def enriched : EnrichedPlan :=
  { Product := "WidgetX", Components := [{ Name := "PowerTest", Voltage := "5V" }] }

/-- The response the DocGen collaborator answers with. -/
def rendered : DocGenResponse :=
  { Status := "success", URL := "gcs://bucket/f.docx",
    Filename := "WidgetX-DVT-Procedure-Rev-B.docx", GenerationTimeMs := 120,
    ComponentsRendered := 2 }

/-- Both collaborators answer 200 and the disk works. -/
def env : Env :=
  { abs := fun path => .ok path
    now := fun k => { sec := 1700000000 + k, nsec := 0 }
    writeFile := fun _ => .ok
    post := fun _ _ body =>
      match body with
      | .enrich _ => .response 200 "enriched"
      | .generate _ => .response 200 "rendered"
    decodeEnriched := fun _ => .ok enriched
    decodeDocGen := fun _ => .ok rendered
    decodeRequest := fun _ =>
      .ok { TriggerEvent := "schematic.archived", Payload := [] }
    -- the literals of the scenarios are integers: each reads as the float64
    -- nearest to it, and the float64 values met here print as they are
    parseFloat := fun q => if q.den = 1 then (roundFloat64 q.num : Rat) else q
    formatFloat := fun x => x }

/-- The PLM collaborator answers 404. -/
def envPlmDown : Env :=
  { env with
    post := fun _ _ body =>
      match body with
      | .enrich _ => .response 404 "product not found"
      | .generate _ => .response 200 "rendered" }

/-- The DocGen collaborator answers 500. -/
def envDocgenDown : Env :=
  { env with
    post := fun _ _ body =>
      match body with
      | .enrich _ => .response 200 "enriched"
      | .generate _ => .response 500 "render failed" }

/-- Every write to the disk fails and leaves the file as unreadable. -/
def envDiskDown : Env :=
  { env with writeFile := fun _ => .failed (.errorf "disk full") none }

/-- A fresh machine: no file, nothing done yet. -/
def world : World :=
  { files := fun _ => none, ticks := 0, writes := 0, calls := [], log := [] }

/-- An entry left by an earlier run. -/
def earlier : StoredEntry :=
  { Timestamp := { sec := 1600000000, nsec := 0 }, WorkflowID := "wf-1600000000",
    Event := "schematic.released", Action := "workflow_completed", Status := "success",
    Details := [("final_document_url", .str "gcs://bucket/e.docx")], Error := "" }

/-- A machine whose audit log holds one earlier entry. -/
def worldWithLog : World :=
  { world with files := fun path =>
      if path = "/app/data/audit-log.json" then some (.entries [earlier]) else none }

/-- An entry left by an earlier run whose generation time, 2^53 + 1 ms, is
not a float64. -/
def earlierLong : StoredEntry :=
  { Timestamp := { sec := 1600000000, nsec := 0 }, WorkflowID := "wf-1600000000",
    Event := "schematic.released", Action := "docgen_command", Status := "success",
    Details := [("document_url", .str "gcs://bucket/e.docx"),
                ("filename", .str "e.docx"),
                ("generation_time_ms", .number 9007199254740993)],
    Error := "" }

/-- A machine whose audit log holds the entry with the long generation
time. -/
def worldWithLongLog : World :=
  { world with files := fun path =>
      if path = "/app/data/audit-log.json" then some (.entries [earlierLong]) else none }

/-- An entry to append. -/
def started : AuditEntry :=
  { Timestamp := { sec := 1700000000, nsec := 0 }, WorkflowID := "wf-1700000000",
    Event := "schematic.released", Action := "workflow_started", Status := "success",
    Details := [("product_name", .str "WidgetX"), ("revision", .str "B")], Error := "" }

/-- Both collaborators answer 201, a success status, with the bodies that
decode. -/
def envCreated : Env :=
  { env with
    post := fun _ _ body =>
      match body with
      | .enrich _ => .response 201 "enriched"
      | .generate _ => .response 201 "rendered" }

/-- The trigger payload of the scenario. -/
def payload : GoMap := [("product_name", .str "WidgetX"), ("revision", .str "B")]

/-- A payload whose product name is the empty string. -/
def payloadEmptyName : GoMap := [("product_name", .str "")]

/-- A payload whose product name is a number. -/
def payloadNumericName : GoMap := [("product_name", .float64 42), ("revision", .str "B")]

/-- The environment `env` with every inbound body decoding to `request`. -/
def withTrigger (env : Env) (request : WorkflowRequest) : Env :=
  { env with decodeRequest := fun _ => .ok request }

/-- The trigger of the scenario. -/
def trigger : WorkflowRequest :=
  { TriggerEvent := "schematic.released", Payload := payload }

/-- A trigger of the supported event whose payload has no product name. -/
def triggerNoName : WorkflowRequest :=
  { TriggerEvent := "schematic.released", Payload := [("revision", .str "B")] }

/-- A trigger of an event the dispatcher does not know. -/
def triggerArchived : WorkflowRequest :=
  { TriggerEvent := "schematic.archived", Payload := payload }

/-- A clock that is read twice within the second 1700000000: at 0.1 s and at
0.2 s into it. -/
def envSameSecond : Env :=
  { env with now := fun k => { sec := 1700000000, nsec := 100000000 * (k + 1) } }

end Scenario

end BPO

/-! # The mock PLM service

A shallow embedding of `src/mock-plm-service/main.go`: the lookup of a
product and the enrichment of a template plan. -/

namespace PLM

open BPO (GoError)

/-- Component represents a component with voltage requirements. -/
structure Component where
  Name : String
  Voltage : String
  TestType : String
deriving DecidableEq, Repr

/-- PLMProduct represents a product in the PLM system. -/
structure PLMProduct where
  Name : String
  Voltage : String
  Description : String
  Revision : String
  Components : List Component
deriving DecidableEq, Repr

/-- PLMData represents the structure of plm-data.json. -/
structure PLMData where
  Products : List PLMProduct
deriving DecidableEq, Repr

/-- ComponentTemplate represents a component template needing enrichment. -/
structure ComponentTemplate where
  Name : String
  Voltage : String
deriving DecidableEq, Repr

/-- TemplatePlan represents an incoming plan template with unresolved
values. -/
structure TemplatePlan where
  Product : String
  Components : List ComponentTemplate
deriving DecidableEq, Repr

/-- EnrichedComponent represents a component with resolved voltage. -/
structure EnrichedComponent where
  Name : String
  Voltage : String
deriving DecidableEq, Repr

/-- EnrichedPlan represents the enriched plan with resolved values. -/
structure EnrichedPlan where
  Product : String
  Components : List EnrichedComponent
deriving DecidableEq, Repr

/-- PLMService handles PLM operations; `data` is the loaded data set. -/
structure PLMService where
  dataPath : String
  data : PLMData
deriving DecidableEq, Repr

/-- The loop of findProduct over the products: the first one with the name. -/
def scanProducts (productName : String) : List PLMProduct → Option PLMProduct
  | [] => none
  | product :: rest =>
    if product.Name = productName then some product else scanProducts productName rest

/-- findProduct finds a product by name. -/
def findProduct (s : PLMService) (productName : String) : Except GoError PLMProduct :=
  match scanProducts productName s.data.Products with
  | some product => .ok product
  | none => .error (.errorf ("product " ++ productName ++ " not found"))

/-- The inner loop of enrichPlan: the voltage of the first product component
with the name, or the voltage held so far when there is none. -/
def scanComponents (name : String) : List Component → String → String
  | [], voltage => voltage
  | productComp :: rest, voltage =>
    if productComp.Name = name then productComp.Voltage else scanComponents name rest voltage

/-- The body of the outer loop of enrichPlan for one template component: the
component stored at its index. -/
def enrichComponent (product : PLMProduct) (templateComp : ComponentTemplate) :
    EnrichedComponent :=
  -- Find the corresponding component in the product
  let voltage := templateComp.Voltage -- Default to template value
  let voltage := scanComponents templateComp.Name product.Components voltage
  -- If voltage is still unresolved, use the product's default voltage
  let voltage := if voltage = "UNRESOLVED" ∨ voltage = "" then product.Voltage else voltage
  { Name := templateComp.Name, Voltage := voltage }

/-- enrichPlan enriches a template plan with actual voltage values: the
slice is made with the length of the template and filled index by index. -/
def enrichPlan (s : PLMService) (template : TemplatePlan) : Except GoError EnrichedPlan :=
  match findProduct s template.Product with
  | .error err => .error err
  | .ok product =>
    let enriched : EnrichedPlan :=
      { Product := template.Product
        Components := List.replicate template.Components.length { Name := "", Voltage := "" } }
    .ok (template.Components.enum.foldl
      (fun enriched it =>
        { enriched with
          Components := enriched.Components.set it.1 (enrichComponent product it.2) })
      enriched)

namespace Scenario

/-- A data set whose product "WidgetX" has no default voltage and no
components, as loaded from a file that leaves them out. -/
def dataNoDefault : PLMData :=
  { Products := [{ Name := "WidgetX", Voltage := "", Description := "Widget",
                   Revision := "B", Components := [] }] }

/-- A data set whose product "WidgetX" carries the sentinel as its default
voltage. -/
def dataSentinelDefault : PLMData :=
  { Products := [{ Name := "WidgetX", Voltage := "UNRESOLVED", Description := "Widget",
                   Revision := "B", Components := [] }] }

/-- A data set whose product "WidgetX" is complete. -/
def dataComplete : PLMData :=
  { Products := [{ Name := "WidgetX", Voltage := "5V", Description := "Widget",
                   Revision := "B",
                   Components := [{ Name := "PowerTest", Voltage := "3.3V",
                                    TestType := "voltage" }] }] }

/-- The template the engine sends for "WidgetX". -/
def template : TemplatePlan :=
  { Product := "WidgetX", Components := [{ Name := "PowerTest", Voltage := "UNRESOLVED" }] }

end Scenario

end PLM

/-! # The mock DocGen service

A shallow embedding of `src/mock-docgen-service/main.go`: the validation of a
document plan. -/

namespace DocGen

open BPO (GoMap Time)

/-- DocProps represents document metadata. -/
structure DocProps where
  Filename : String
  HeaderComponent : String
  HeaderProps : GoMap

/-- ComponentInstance represents a component to render. -/
inductive ComponentInstance where
  | mk (Component : String) (Props : GoMap) (Children : List ComponentInstance)

/-- The field `Component`. -/
def ComponentInstance.Component : ComponentInstance → String
  | .mk component _ _ => component

/-- The field `Props`. -/
def ComponentInstance.Props : ComponentInstance → GoMap
  | .mk _ props _ => props

/-- DocumentPlan represents an incoming document plan. -/
structure DocumentPlan where
  DocProps : Option DocProps
  Body : List ComponentInstance

/-- ValidationError represents a validation error. -/
structure ValidationError where
  Field : String
  Issue : String
deriving DecidableEq, Repr

/-- DocGenService handles document generation operations. -/
structure DocGenService where
  startTime : Time
  availableComponents : List String
deriving DecidableEq, Repr

/-- NewDocGenService creates a new DocGen service instance; `now` is the
reading of `time.Now()`. -/
def NewDocGenService (now : Time) : DocGenService :=
  { startTime := now
    availableComponents := ["DocumentTitle", "TestBlock", "AuthorBlock", "DocumentSubject"] }

/-- The body of the loop of validatePlan for the instance at index `i`: the
errors so far, with the errors of this instance appended. -/
def validateInstance (s : DocGenService) (errors : List ValidationError) (i : Nat)
    (comp : ComponentInstance) : List ValidationError :=
  let found := s.availableComponents.any (fun available => comp.Component == available)
  let errors :=
    if !found then
      errors ++ [{ Field := "body[" ++ toString i ++ "].component",
                   Issue := "Unknown component type: " ++ comp.Component }]
    else errors
  -- Basic props validation
  if comp.Props.length = 0 then
    errors ++ [{ Field := "body[" ++ toString i ++ "].props",
                 Issue := "Component props cannot be empty" }]
  else errors

/-- validatePlan validates a document plan. -/
def validatePlan (s : DocGenService) (plan : DocumentPlan) : Bool × List ValidationError :=
  let errors := plan.Body.enum.foldl (fun errors it => validateInstance s errors it.1 it.2) []
  (errors.length == 0, errors)

/-- What `ShouldBindJSON` decodes from the JSON of a component instance of
the engine: the fields "component" and "props", and no children.  The props
the engine builds hold strings only, which decode to themselves. -/
def bindInstance (inst : BPO.ComponentInstance) : ComponentInstance :=
  .mk inst.Component inst.Props []

/-- What `ShouldBindJSON` decodes from the JSON of a document plan of the
engine: the two services name the fields alike ("doc_props", "filename",
"body"), and the fields the engine does not send are zero. -/
def bindPlan (plan : BPO.DocumentPlan) : DocumentPlan :=
  { DocProps := plan.DocProps.map
      (fun props => { Filename := props.Filename, HeaderComponent := "", HeaderProps := [] })
    Body := plan.Body.map bindInstance }

end DocGen

namespace BPO

/-! ## What each step touches -/

theorem readExisting_frame (env : Env) (p : String) (w : World) :
    (readExisting env p w).2.files = w.files ∧ (readExisting env p w).2.ticks = w.ticks ∧
    (readExisting env p w).2.writes = w.writes ∧
    (readExisting env p w).2.calls = w.calls := by
  unfold readExisting osReadFile
  split
  · split
    · split <;> simp [World.logf]
    · simp
  · simp

/-- What is read is the decoded form of what the file holds. -/
theorem readExisting_fst (env : Env) (p : String) (w : World) :
    (readExisting env p w).1 = (storedOf (w.files p)).map (StoredEntry.toEntry env) := by
  unfold readExisting osReadFile
  split
  · rename_i data hdata
    rw [hdata]
    cases data with
    | entries es => simp [FileData.nonEmpty, jsonUnmarshal, storedOf]
    | garbage bytes why =>
      simp only [storedOf, List.map_nil]
      split
      · simp [jsonUnmarshal]
      · rfl
  · rename_i hnone
    rw [hnone]
    rfl

theorem osWriteFile_frame (env : Env) (p : String) (d : FileData) (w : World) :
    (osWriteFile env p d w).2.ticks = w.ticks ∧ (osWriteFile env p d w).2.calls = w.calls := by
  unfold osWriteFile
  split <;> simp

theorem writeAuditEntry_frame (env : Env) (s : BPOService) (e : AuditEntry) (w : World) :
    (writeAuditEntry env s e w).2.ticks = w.ticks ∧
    (writeAuditEntry env s e w).2.calls = w.calls := by
  unfold writeAuditEntry
  split
  · simp
  · rename_i absPath _
    simp only [jsonMarshalIndent]
    have h1 := readExisting_frame env absPath w
    have h2 := osWriteFile_frame env absPath
      (.entries (((readExisting env absPath w).1 ++ [e]).map (AuditEntry.toStored env)))
      (readExisting env absPath w).2
    split <;> rename_i heq <;> simp only [heq] at h2 <;> simp [h1, h2]

theorem auditOrLog_ticks (env : Env) (s : BPOService) (e : AuditEntry) (w : World) :
    (auditOrLog env s e w).ticks = w.ticks := by
  have h := writeAuditEntry_frame env s e w
  unfold auditOrLog
  split <;> rename_i heq <;> simp only [heq] at h <;> simp [World.logf, h]

theorem auditOrLog_calls (env : Env) (s : BPOService) (e : AuditEntry) (w : World) :
    (auditOrLog env s e w).calls = w.calls := by
  have h := writeAuditEntry_frame env s e w
  unfold auditOrLog
  split <;> rename_i heq <;> simp only [heq] at h <;> simp [World.logf, h]

/-- The file after a write that succeeds: the stored entries as a read and
rewrite leaves them, followed by the new entry as it is encoded. -/
theorem writeAuditEntry_files (env : Env) (s : BPOService) (e : AuditEntry) (w : World)
    (p : String) (habs : env.abs s.auditLogPath = .ok p)
    (hw : env.writeFile (readExisting env p w).2.writes = .ok) :
    (writeAuditEntry env s e w).1 = none ∧
    (writeAuditEntry env s e w).2.files p
      = some (.entries ((storedOf (w.files p)).map (reread env) ++ [e.toStored env])) := by
  simp [writeAuditEntry, habs, jsonMarshalIndent, osWriteFile, hw, readExisting_fst,
    Function.comp_def, reread]

/-- When the path resolves and the disk accepts the write, the file holds
afterwards the stored entries as a read and rewrite leaves them, followed by
the new entry as it is encoded. -/
theorem auditOrLog_files (env : Env) (s : BPOService) (e : AuditEntry) (w : World)
    (p : String) (habs : env.abs s.auditLogPath = .ok p)
    (hw : env.writeFile (readExisting env p w).2.writes = .ok) :
    (auditOrLog env s e w).files p
      = some (.entries ((storedOf (w.files p)).map (reread env) ++ [e.toStored env])) := by
  simp [auditOrLog, writeAuditEntry, habs, jsonMarshalIndent, osWriteFile, hw,
    readExisting_fst, Function.comp_def, reread]

/-! ## What a read and rewrite does to the details -/

mutual
/-- A JSON value whose numbers read back as themselves is encoded, after
decoding, as it was. -/
theorem reread_exact (env : Env) : (j : Json) → j.exact env →
    (j.decode env).toJson env = j
  | .null, _ => rfl
  | .bool _, _ => rfl
  | .number q, h => by
    simp only [Json.decode, Any.toJson]
    rw [show env.formatFloat (env.parseFloat q) = q from h]
  | .str _, _ => rfl
  | .array xs, h => by
    simp only [Json.decode, Any.toJson]
    rw [reread_exact_list env xs h]
  | .object kvs, h => by
    simp only [Json.decode, Any.toJson]
    rw [reread_exact_fields env kvs h]
/-- The elements of an array, when their numbers read back as themselves. -/
theorem reread_exact_list (env : Env) : (xs : List Json) → exactList env xs →
    toJsonList env (decodeList env xs) = xs
  | [], _ => rfl
  | x :: xs, h => by
    simp only [decodeList, toJsonList]
    rw [reread_exact env x h.1, reread_exact_list env xs h.2]
/-- The members of an object, when their numbers read back as themselves. -/
theorem reread_exact_fields (env : Env) : (kvs : List (String × Json)) →
    exactFields env kvs → toJsonFields env (decodeFields env kvs) = kvs
  | [], _ => rfl
  | (k, v) :: rest, h => by
    simp only [decodeFields, toJsonFields]
    rw [reread_exact env v h.1, reread_exact_fields env rest h.2]
end

theorem toJson_str (env : Env) (v : String) : (Any.str v).toJson env = .str v := rfl

theorem toJson_int (env : Env) (n : Int) : (Any.int n).toJson env = .number n := rfl

theorem toJson_template (env : Env) (t : TemplatePlan) :
    (Any.template t).toJson env = t.toJson := rfl

theorem toJson_enrichedPlan (env : Env) (plan : EnrichedPlan) :
    (Any.enrichedPlan plan).toJson env = plan.toJson := rfl

theorem toJson_float64 (env : Env) (x : Rat) :
    (Any.float64 x).toJson env = .number (env.formatFloat x) := rfl

theorem decode_str (env : Env) (v : String) : (Json.str v).decode env = .str v := rfl

theorem decode_number (env : Env) (q : Rat) :
    (Json.number q).decode env = .float64 (env.parseFloat q) := rfl

/-- A stored entry whose numbers read back as themselves is left as it is by a
read and rewrite. -/
theorem reread_of_exact (env : Env) (e : StoredEntry) (h : exactFields env e.Details) :
    reread env e = e := by
  simp [reread, AuditEntry.toStored, StoredEntry.toEntry, reread_exact_fields env _ h]

/-- Stored entries that a read and rewrite leaves as they are stay so however
often the file is rewritten. -/
theorem rewritten_of_fixed (env : Env) (k : Nat) (L : List StoredEntry)
    (h : ∀ e ∈ L, reread env e = e) : rewritten env k L = L := by
  induction k with
  | zero => rfl
  | succ k ih =>
    have hmap : L.map (reread env) = L := by
      conv_rhs => rw [← List.map_id L]
      exact List.map_congr_left h
    simp only [rewritten, hmap, ih]

theorem rewritten_length (env : Env) (k : Nat) (L : List StoredEntry) :
    (rewritten env k L).length = L.length := by
  induction k generalizing L with
  | zero => rfl
  | succ k ih => simp [rewritten, ih]

/-- The JSON of the components of a plan holds no number. -/
theorem exactList_components (env : Env) (cs : List EnrichedComponent) :
    exactList env (cs.map fun c =>
      .object [("name", .str c.Name), ("voltage", .str c.Voltage)]) := by
  induction cs with
  | nil => trivial
  | cons c cs ih => exact ⟨⟨trivial, trivial, trivial⟩, ih⟩

/-- The JSON of an enriched plan is encoded, after decoding, as it was. -/
theorem reread_enrichedPlan (env : Env) (plan : EnrichedPlan) :
    (plan.toJson.decode env).toJson env = plan.toJson :=
  reread_exact env _ ⟨trivial, exactList_components env plan.Components, trivial⟩

/-- The JSON of the template plan of step 2 is encoded, after decoding, as it
was. -/
theorem reread_template (env : Env) (P : String) :
    ((templateFor P).toJson.decode env).toJson env = (templateFor P).toJson :=
  reread_exact env _ ⟨trivial, ⟨⟨trivial, trivial, trivial⟩, trivial⟩, trivial⟩

theorem consultPLM_snd (env : Env) (s : BPOService) (t : TemplatePlan) (w : World) :
    (consultPLM env s t w).2 = { w with calls := w.calls ++ [plmCall s t] } := by
  unfold consultPLM
  simp only [jsonMarshal, httpPost, plmCall]
  cases env.post w.calls (s.plmServiceURL ++ "/enrich-plan") (.enrich t) with
  | transportError err => rfl
  | response code body =>
    simp only
    split
    · rfl
    · cases env.decodeEnriched body <;> rfl

/-- The outcome of the enrichment call is decided by the network, the decoder
and the requests issued before it. -/
theorem consultPLM_fst_congr (env1 env2 : Env) (s : BPOService) (t : TemplatePlan)
    (w1 w2 : World) (hpost : env1.post = env2.post)
    (hdec : env1.decodeEnriched = env2.decodeEnriched) (h : w1.calls = w2.calls) :
    (consultPLM env1 s t w1).1 = (consultPLM env2 s t w2).1 := by
  unfold consultPLM
  simp only [jsonMarshal, httpPost, h, hpost, hdec]
  cases env2.post w2.calls (s.plmServiceURL ++ "/enrich-plan") (.enrich t) with
  | transportError err => rfl
  | response code body =>
    simp only
    split
    · rfl
    · cases env2.decodeEnriched body <;> rfl

theorem commandDocGen_snd (env : Env) (s : BPOService) (plan : DocumentPlan) (w : World) :
    (commandDocGen env s plan w).2 = { w with calls := w.calls ++ [docgenCall s plan] } := by
  unfold commandDocGen
  simp only [jsonMarshal, httpPost, docgenCall]
  cases env.post w.calls (s.docgenServiceURL ++ "/generate") (.generate plan) with
  | transportError err => rfl
  | response code body =>
    simp only
    split
    · rfl
    · cases env.decodeDocGen body <;> rfl

/-- The outcome of the render call is decided by the network, the decoder and
the requests issued before it. -/
theorem commandDocGen_fst_congr (env1 env2 : Env) (s : BPOService) (plan : DocumentPlan)
    (w1 w2 : World) (hpost : env1.post = env2.post)
    (hdec : env1.decodeDocGen = env2.decodeDocGen) (h : w1.calls = w2.calls) :
    (commandDocGen env1 s plan w1).1 = (commandDocGen env2 s plan w2).1 := by
  unfold commandDocGen
  simp only [jsonMarshal, httpPost, h, hpost, hdec]
  cases env2.post w2.calls (s.docgenServiceURL ++ "/generate") (.generate plan) with
  | transportError err => rfl
  | response code body =>
    simp only
    split
    · rfl
    · cases env2.decodeDocGen body <;> rfl

/-- The enrichment call at any world with the request history of `w0`. -/
theorem consultPLM_eq (env : Env) (s : BPOService) (t : TemplatePlan) (w0 w : World)
    (h : w.calls = w0.calls) :
    consultPLM env s t w =
      ((consultPLM env s t w0).1, { w with calls := w0.calls ++ [plmCall s t] }) := by
  have h1 := consultPLM_snd env s t w
  have h2 := consultPLM_fst_congr env env s t w w0 rfl rfl h
  rw [h] at h1
  exact Prod.ext h2 h1

/-- The render call at any world with the request history of `w0`. -/
theorem commandDocGen_eq (env : Env) (s : BPOService) (plan : DocumentPlan) (w0 w : World)
    (h : w.calls = w0.calls) :
    commandDocGen env s plan w =
      ((commandDocGen env s plan w0).1, { w with calls := w0.calls ++ [docgenCall s plan] }) := by
  have h1 := commandDocGen_snd env s plan w
  have h2 := commandDocGen_fst_congr env env s plan w w0 rfl rfl h
  rw [h] at h1
  exact Prod.ext h2 h1

/-! ## The document plan -/

/-- The loop of step 4 appends the test blocks in the order of the
components. -/
theorem foldl_append_body (productName : String) (comps : List EnrichedComponent)
    (plan : DocumentPlan) :
    comps.foldl
        (fun plan comp => { plan with Body := plan.Body ++ [testBlock productName comp] }) plan
      = { plan with Body := plan.Body ++ comps.map (testBlock productName) } := by
  induction comps generalizing plan with
  | nil => simp
  | cons c cs ih => simp [ih]

theorem buildDocumentPlan_eq (P R : String) (enriched : EnrichedPlan) :
    buildDocumentPlan P R enriched =
      { DocProps := some { Filename := P ++ "-DVT-Procedure-Rev-" ++ R }
        Body := titleInstance P R :: enriched.Components.map (testBlock P) } := by
  simp [buildDocumentPlan, foldl_append_body]

/-! ## The three ways through the workflow -/

/-- The enrichment call fails: the result and the requests issued. -/
theorem exec_plm_error (env : Env) (s : BPOService) (workflowID : String) (payload : GoMap)
    (w : World) (P : String) (err : GoError)
    (hP : payload.getString "product_name" = some P)
    (hplm : (consultPLM env s (templateFor P) w).1 = .error err) :
    (executeSchematicReleasedWorkflow env s workflowID payload w).1
        = .error (.wrapf "PLM consultation failed: " err) ∧
    (executeSchematicReleasedWorkflow env s workflowID payload w).2.calls
        = w.calls ++ [plmCall s (templateFor P)] := by
  unfold executeSchematicReleasedWorkflow
  simp only [hP, timeNow]
  rw [consultPLM_eq env s (templateFor P) w _ (by simp [auditOrLog_calls]), hplm]
  simp [auditOrLog_calls]

/-- The enrichment call succeeds and the render call fails: the result and
the requests issued. -/
theorem exec_docgen_error (env : Env) (s : BPOService) (workflowID : String)
    (payload : GoMap) (w : World) (P : String) (enriched : EnrichedPlan) (err : GoError)
    (hP : payload.getString "product_name" = some P)
    (hplm : (consultPLM env s (templateFor P) w).1 = .ok enriched)
    (hdoc : (commandDocGen env s
        (buildDocumentPlan P ((payload.getString "revision").getD "A") enriched)
        (consultPLM env s (templateFor P) w).2).1 = .error err) :
    (executeSchematicReleasedWorkflow env s workflowID payload w).1
        = .error (.wrapf "DocGen command failed: " err) ∧
    (executeSchematicReleasedWorkflow env s workflowID payload w).2.calls
        = w.calls ++ [plmCall s (templateFor P),
            docgenCall s (buildDocumentPlan P ((payload.getString "revision").getD "A")
              enriched)] := by
  unfold executeSchematicReleasedWorkflow
  simp only [hP, timeNow]
  rw [consultPLM_eq env s (templateFor P) w _ (by simp [auditOrLog_calls]), hplm]
  simp only
  cases hR : payload.getString "revision" <;> simp only [hR, Option.getD] at hdoc ⊢ <;>
    rw [commandDocGen_eq env s _ (consultPLM env s (templateFor P) w).2 _
      (by simp [auditOrLog_calls, consultPLM_snd]), hdoc] <;>
    simp [auditOrLog_calls, consultPLM_snd]

/-- Both calls succeed: the result and the requests issued. -/
theorem exec_success (env : Env) (s : BPOService) (workflowID : String)
    (payload : GoMap) (w : World) (P : String) (enriched : EnrichedPlan)
    (resp : DocGenResponse)
    (hP : payload.getString "product_name" = some P)
    (hplm : (consultPLM env s (templateFor P) w).1 = .ok enriched)
    (hdoc : (commandDocGen env s
        (buildDocumentPlan P ((payload.getString "revision").getD "A") enriched)
        (consultPLM env s (templateFor P) w).2).1 = .ok resp) :
    (executeSchematicReleasedWorkflow env s workflowID payload w).1
        = .ok { Status := "success", WorkflowID := workflowID,
                Message := "Workflow completed successfully", DocumentURL := resp.URL } ∧
    (executeSchematicReleasedWorkflow env s workflowID payload w).2.calls
        = w.calls ++ [plmCall s (templateFor P),
            docgenCall s (buildDocumentPlan P ((payload.getString "revision").getD "A")
              enriched)] := by
  unfold executeSchematicReleasedWorkflow
  simp only [hP, timeNow]
  rw [consultPLM_eq env s (templateFor P) w _ (by simp [auditOrLog_calls]), hplm]
  simp only
  cases hR : payload.getString "revision" <;> simp only [hR, Option.getD] at hdoc ⊢ <;>
    rw [commandDocGen_eq env s _ (consultPLM env s (templateFor P) w).2 _
      (by simp [auditOrLog_calls, consultPLM_snd]), hdoc] <;>
    simp [auditOrLog_calls, consultPLM_snd]

/-- After a successful enrichment the render call is issued with the plan of
step 4, whatever the render collaborator answers. -/
theorem exec_calls_enriched (env : Env) (s : BPOService) (workflowID : String)
    (payload : GoMap) (w : World) (P : String) (enriched : EnrichedPlan)
    (hP : payload.getString "product_name" = some P)
    (hplm : (consultPLM env s (templateFor P) w).1 = .ok enriched) :
    (executeSchematicReleasedWorkflow env s workflowID payload w).2.calls
        = w.calls ++ [plmCall s (templateFor P),
            docgenCall s (buildDocumentPlan P ((payload.getString "revision").getD "A")
              enriched)] := by
  cases hdoc : (commandDocGen env s
      (buildDocumentPlan P ((payload.getString "revision").getD "A") enriched)
      (consultPLM env s (templateFor P) w).2).1 with
  | error err => exact (exec_docgen_error env s workflowID payload w P enriched err hP hplm hdoc).2
  | ok resp => exact (exec_success env s workflowID payload w P enriched resp hP hplm hdoc).2

/-- Without a string product name nothing happens. -/
theorem exec_invalid (env : Env) (s : BPOService) (workflowID : String) (payload : GoMap)
    (w : World) (hP : payload.getString "product_name" = none) :
    executeSchematicReleasedWorkflow env s workflowID payload w
      = (.error (.errorf "product_name is required in payload"), w) := by
  unfold executeSchematicReleasedWorkflow
  simp only [hP]

theorem getString_eq_none (m : GoMap) (key : String)
    (h : ∀ P, m.get key ≠ some (.str P)) : m.getString key = none := by
  unfold GoMap.getString
  split
  · rename_i s hs
    exact absurd hs (h s)
  · rfl

theorem getString_of_get (m : GoMap) (key : String) (v : String)
    (h : m.get key = some (.str v)) : m.getString key = some v := by
  simp [GoMap.getString, h]

theorem getString_revision_default (m : GoMap)
    (h : ∀ R, m.get "revision" ≠ some (.str R)) :
    (m.getString "revision").getD "A" = "A" := by
  rw [getString_eq_none m "revision" h]
  rfl

/-! ## The claims -/

/-- C1: for a payload whose product_name is a string P and a successful
enrichment, the workflow sends the render collaborator, right after the
enrichment request, a document plan whose doc_props filename is
P ++ "-DVT-Procedure-Rev-" ++ R, where R is the payload's revision when that
is a string and "A" when it is absent or not a string. -/
theorem document_filename (env : Env) (s : BPOService) (workflowID : String)
    (payload : GoMap) (w : World) (P : String) (enriched : EnrichedPlan)
    (hP : payload.get "product_name" = some (.str P))
    (hplm : (consultPLM env s (templateFor P) w).1 = .ok enriched) :
    ∃ plan : DocumentPlan,
      (executeSchematicReleasedWorkflow env s workflowID payload w).2.calls
        = w.calls ++ [plmCall s (templateFor P), docgenCall s plan] ∧
      (∀ R, payload.get "revision" = some (.str R) →
        plan.DocProps = some { Filename := P ++ "-DVT-Procedure-Rev-" ++ R }) ∧
      ((∀ R, payload.get "revision" ≠ some (.str R)) →
        plan.DocProps = some { Filename := P ++ "-DVT-Procedure-Rev-" ++ "A" }) := by
  refine ⟨buildDocumentPlan P ((payload.getString "revision").getD "A") enriched,
    exec_calls_enriched env s workflowID payload w P enriched
      (getString_of_get payload _ P hP) hplm, ?_, ?_⟩
  · intro R hR
    rw [getString_of_get payload _ R hR, buildDocumentPlan_eq]
    rfl
  · intro hR
    rw [getString_revision_default payload hR, buildDocumentPlan_eq]

/-- C1 at the scenario: product "WidgetX", revision "B". -/
theorem document_filename_witness :
    Scenario.payload.get "product_name" = some (.str "WidgetX") ∧
    (consultPLM Scenario.env Scenario.svc (templateFor "WidgetX") Scenario.world).1
      = .ok Scenario.enriched ∧
    ∃ plan : DocumentPlan,
      (executeSchematicReleasedWorkflow Scenario.env Scenario.svc "wf-1700000000"
          Scenario.payload Scenario.world).2.calls
        = Scenario.world.calls ++
            [plmCall Scenario.svc (templateFor "WidgetX"), docgenCall Scenario.svc plan] ∧
      (∀ R, Scenario.payload.get "revision" = some (.str R) →
        plan.DocProps = some { Filename := "WidgetX" ++ "-DVT-Procedure-Rev-" ++ R }) ∧
      ((∀ R, Scenario.payload.get "revision" ≠ some (.str R)) →
        plan.DocProps = some { Filename := "WidgetX" ++ "-DVT-Procedure-Rev-" ++ "A" }) :=
  ⟨rfl, rfl,
    document_filename Scenario.env Scenario.svc "wf-1700000000" Scenario.payload
      Scenario.world "WidgetX" Scenario.enriched rfl rfl⟩

/-- C2: for an enriched plan with N components the body of the document plan
sent to the render collaborator has length N+1; element 0 is the
"DocumentTitle" instance with document_title, product_name and revision, and
no other element is a "DocumentTitle"; element i+1 is the "TestBlock" of the
i-th enriched component, with its name and voltage, the product name and the
fixed description. -/
theorem document_body (env : Env) (s : BPOService) (workflowID : String)
    (payload : GoMap) (w : World) (P : String) (enriched : EnrichedPlan)
    (hP : payload.get "product_name" = some (.str P))
    (hplm : (consultPLM env s (templateFor P) w).1 = .ok enriched) :
    ∃ plan : DocumentPlan,
      (executeSchematicReleasedWorkflow env s workflowID payload w).2.calls
        = w.calls ++ [plmCall s (templateFor P), docgenCall s plan] ∧
      plan.Body.length = enriched.Components.length + 1 ∧
      plan.Body[0]? = some
        { Component := "DocumentTitle"
          Props := [("document_title", .str "Design Verification Test Procedure"),
                    ("product_name", .str P),
                    ("revision", .str ((payload.getString "revision").getD "A"))] } ∧
      (∀ i comp, enriched.Components[i]? = some comp →
        plan.Body[i + 1]? = some
          { Component := "TestBlock"
            Props := [("test_name", .str comp.Name),
                      ("voltage", .str comp.Voltage),
                      ("product_name", .str P),
                      ("description", .str "Validate power supply voltage requirements")] }) ∧
      (∀ j inst, plan.Body[j]? = some inst → inst.Component = "DocumentTitle" → j = 0) := by
  refine ⟨buildDocumentPlan P ((payload.getString "revision").getD "A") enriched,
    exec_calls_enriched env s workflowID payload w P enriched
      (getString_of_get payload _ P hP) hplm, ?_, ?_, ?_, ?_⟩
  · simp [buildDocumentPlan_eq]
  · simp [buildDocumentPlan_eq, titleInstance]
  · intro i comp hi
    simp [buildDocumentPlan_eq, List.getElem?_map, hi, testBlock]
  · intro j inst hj hc
    cases j with
    | zero => rfl
    | succ k =>
      rw [buildDocumentPlan_eq] at hj
      simp only [List.getElem?_cons_succ, List.getElem?_map] at hj
      cases hk : enriched.Components[k]? with
      | none => simp [hk] at hj
      | some comp =>
        simp only [hk, Option.map_some', Option.some.injEq] at hj
        rw [← hj] at hc
        simp [testBlock] at hc

/-- C2 at the scenario: one enriched component, a body of two instances. -/
theorem document_body_witness :
    Scenario.payload.get "product_name" = some (.str "WidgetX") ∧
    (consultPLM Scenario.env Scenario.svc (templateFor "WidgetX") Scenario.world).1
      = .ok Scenario.enriched ∧
    ∃ plan : DocumentPlan,
      (executeSchematicReleasedWorkflow Scenario.env Scenario.svc "wf-1700000000"
          Scenario.payload Scenario.world).2.calls
        = Scenario.world.calls ++
            [plmCall Scenario.svc (templateFor "WidgetX"), docgenCall Scenario.svc plan] ∧
      plan.Body.length = Scenario.enriched.Components.length + 1 ∧
      plan.Body[0]? = some
        { Component := "DocumentTitle"
          Props := [("document_title", .str "Design Verification Test Procedure"),
                    ("product_name", .str "WidgetX"),
                    ("revision", .str ((Scenario.payload.getString "revision").getD "A"))] } ∧
      (∀ i comp, Scenario.enriched.Components[i]? = some comp →
        plan.Body[i + 1]? = some
          { Component := "TestBlock"
            Props := [("test_name", .str comp.Name),
                      ("voltage", .str comp.Voltage),
                      ("product_name", .str "WidgetX"),
                      ("description", .str "Validate power supply voltage requirements")] }) ∧
      (∀ j inst, plan.Body[j]? = some inst → inst.Component = "DocumentTitle" → j = 0) :=
  ⟨rfl, rfl,
    document_body Scenario.env Scenario.svc "wf-1700000000" Scenario.payload
      Scenario.world "WidgetX" Scenario.enriched rfl rfl⟩

/-- C5: when product_name is absent or is not a string, the workflow returns
the error "product_name is required in payload" and no response, and the
world is left as it was: no audit entry, no write, no request, no clock
reading, no log line. -/
theorem missing_product_name_rejected (env : Env) (s : BPOService) (workflowID : String)
    (payload : GoMap) (w : World)
    (hP : ∀ P, payload.get "product_name" ≠ some (.str P)) :
    (executeSchematicReleasedWorkflow env s workflowID payload w).1
        = .error (.errorf "product_name is required in payload") ∧
    (executeSchematicReleasedWorkflow env s workflowID payload w).2 = w ∧
    auditStore env s (executeSchematicReleasedWorkflow env s workflowID payload w).2
        = auditStore env s w ∧
    (executeSchematicReleasedWorkflow env s workflowID payload w).2.calls = w.calls := by
  rw [exec_invalid env s workflowID payload w (getString_eq_none payload _ hP)]
  exact ⟨rfl, rfl, rfl, rfl⟩

/-- C5 at a payload whose product_name is a number. -/
theorem missing_product_name_rejected_witness :
    (∀ P, Scenario.payloadNumericName.get "product_name" ≠ some (.str P)) ∧
    (executeSchematicReleasedWorkflow Scenario.env Scenario.svc "wf-1700000000"
        Scenario.payloadNumericName Scenario.worldWithLog).1
      = .error (.errorf "product_name is required in payload") ∧
    (executeSchematicReleasedWorkflow Scenario.env Scenario.svc "wf-1700000000"
        Scenario.payloadNumericName Scenario.worldWithLog).2 = Scenario.worldWithLog :=
  have h : ∀ P, Scenario.payloadNumericName.get "product_name" ≠ some (.str P) := by
    intro P hget
    have h42 : Scenario.payloadNumericName.get "product_name" = some (.float64 42) := rfl
    rw [h42] at hget
    cases hget
  ⟨h, (missing_product_name_rejected Scenario.env Scenario.svc "wf-1700000000"
        Scenario.payloadNumericName Scenario.worldWithLog h).1,
      (missing_product_name_rejected Scenario.env Scenario.svc "wf-1700000000"
        Scenario.payloadNumericName Scenario.worldWithLog h).2.1⟩

/-- C3: for a payload with a string product_name, when the enrichment call
fails with `err` the workflow returns an error and no response, issues the
enrichment request and no render request, and, when the audit writes succeed
on a store holding the entries L, leaves the store holding the entries of L,
as the three reads and rewrites of the file leave them, followed by exactly
three entries: workflow_started/success, template_plan_generated/success and
plm_consultation/failed with the text of `err`.  The entries of L are left as
they were when all their numbers read back as themselves. -/
theorem plm_failure_trail (env : Env) (s : BPOService) (workflowID : String)
    (payload : GoMap) (w : World) (P : String) (err : GoError)
    (hP : payload.get "product_name" = some (.str P))
    (hplm : (consultPLM env s (templateFor P) w).1 = .error err) :
    (executeSchematicReleasedWorkflow env s workflowID payload w).1
        = .error (.wrapf "PLM consultation failed: " err) ∧
    (executeSchematicReleasedWorkflow env s workflowID payload w).2.calls
        = w.calls ++ [plmCall s (templateFor P)] ∧
    (∀ c ∈ callsSince w (executeSchematicReleasedWorkflow env s workflowID payload w).2,
      ∀ plan, c.body ≠ .generate plan) ∧
    (∀ L, (∀ k, env.writeFile k = .ok) → auditStore env s w = some (.entries L) →
      auditStore env s (executeSchematicReleasedWorkflow env s workflowID payload w).2
        = some (.entries (rewritten env 3 L ++
          [{ Timestamp := env.now w.ticks, WorkflowID := workflowID,
             Event := "schematic.released", Action := "workflow_started",
             Status := "success",
             Details := [("product_name", .str P),
                         ("revision", .str ((payload.getString "revision").getD "A"))],
             Error := "" },
           { Timestamp := env.now (w.ticks + 1), WorkflowID := workflowID,
             Event := "schematic.released", Action := "template_plan_generated",
             Status := "success", Details := [("template", (templateFor P).toJson)],
             Error := "" },
           { Timestamp := env.now (w.ticks + 2), WorkflowID := workflowID,
             Event := "schematic.released", Action := "plm_consultation",
             Status := "failed", Details := [], Error := err.Error }])) ∧
      ((∀ e ∈ L, exactFields env e.Details) → rewritten env 3 L = L)) := by
  have hS := getString_of_get payload _ P hP
  have hrun := exec_plm_error env s workflowID payload w P err hS hplm
  refine ⟨hrun.1, hrun.2, ?_, ?_⟩
  · intro c hc plan
    rw [callsSince, hrun.2] at hc
    simp only [List.drop_left, List.mem_singleton] at hc
    subst hc
    simp [plmCall]
  · intro L hw hstore
    refine ⟨?_, fun hex =>
      rewritten_of_fixed env 3 L (fun e he => reread_of_exact env e (hex e he))⟩
    unfold auditStore at hstore ⊢
    cases habs : env.abs s.auditLogPath with
    | error e => simp [habs] at hstore
    | ok p =>
      simp only [habs] at hstore ⊢
      have hfiles : ∀ (e : AuditEntry) (W : World), (auditOrLog env s e W).files p
          = some (.entries ((storedOf (W.files p)).map (reread env) ++ [e.toStored env])) :=
        fun e W => auditOrLog_files env s e W p habs (hw _)
      unfold executeSchematicReleasedWorkflow
      simp only [hS, timeNow]
      rw [consultPLM_eq env s (templateFor P) w _ (by simp [auditOrLog_calls]), hplm]
      cases hR : payload.getString "revision" <;>
        simp [hfiles, storedOf, hstore, auditOrLog_ticks, rewritten, reread,
          AuditEntry.toStored, StoredEntry.toEntry, toJsonFields, decodeFields,
          toJson_str, toJson_template, decode_str, reread_template]

/-- C3 at the scenario with the PLM collaborator answering 404, on a store
that holds one earlier entry. -/
theorem plm_failure_trail_witness :
    Scenario.payload.get "product_name" = some (.str "WidgetX") ∧
    (consultPLM Scenario.envPlmDown Scenario.svc (templateFor "WidgetX")
        Scenario.worldWithLog).1
      = .error (.errorf "PLM service returned 404: product not found") ∧
    (executeSchematicReleasedWorkflow Scenario.envPlmDown Scenario.svc "wf-1700000000"
        Scenario.payload Scenario.worldWithLog).1
      = .error (.wrapf "PLM consultation failed: "
          (.errorf "PLM service returned 404: product not found")) ∧
    auditStore Scenario.envPlmDown Scenario.svc
        (executeSchematicReleasedWorkflow Scenario.envPlmDown Scenario.svc "wf-1700000000"
          Scenario.payload Scenario.worldWithLog).2
      = some (.entries (rewritten Scenario.envPlmDown 3 [Scenario.earlier] ++
          [{ Timestamp := Scenario.envPlmDown.now Scenario.worldWithLog.ticks,
             WorkflowID := "wf-1700000000",
             Event := "schematic.released", Action := "workflow_started",
             Status := "success",
             Details := [("product_name", .str "WidgetX"),
                         ("revision", .str ((Scenario.payload.getString "revision").getD "A"))],
             Error := "" },
           { Timestamp := Scenario.envPlmDown.now (Scenario.worldWithLog.ticks + 1),
             WorkflowID := "wf-1700000000",
             Event := "schematic.released", Action := "template_plan_generated",
             Status := "success",
             Details := [("template", (templateFor "WidgetX").toJson)],
             Error := "" },
           { Timestamp := Scenario.envPlmDown.now (Scenario.worldWithLog.ticks + 2),
             WorkflowID := "wf-1700000000",
             Event := "schematic.released", Action := "plm_consultation",
             Status := "failed", Details := [],
             Error := (GoError.errorf "PLM service returned 404: product not found").Error }])) ∧
    rewritten Scenario.envPlmDown 3 [Scenario.earlier] = [Scenario.earlier] :=
  have h := plm_failure_trail Scenario.envPlmDown Scenario.svc "wf-1700000000"
    Scenario.payload Scenario.worldWithLog "WidgetX"
    (.errorf "PLM service returned 404: product not found") rfl rfl
  have hstore : auditStore Scenario.envPlmDown Scenario.svc Scenario.worldWithLog
      = some (.entries [Scenario.earlier]) := by
    simp [auditStore, Scenario.envPlmDown, Scenario.env, Scenario.svc, NewBPOService,
      Scenario.worldWithLog]
  ⟨rfl, rfl, h.1, (h.2.2.2 [Scenario.earlier] (fun _ => rfl) hstore).1,
    (h.2.2.2 [Scenario.earlier] (fun _ => rfl) hstore).2 (by
      simp [Scenario.earlier, exactFields, Json.exact])⟩

/-- C4: for a payload with a string product_name, when the enrichment call
succeeds and the render call fails with `e`, the workflow returns no response
and an error that wraps `e`, with the message "DocGen command failed: "
followed by the text of `e`, and, when the audit writes succeed on a store
holding the entries L, leaves the store holding the entries of L, as the four
reads and rewrites of the file leave them, followed by exactly four entries:
workflow_started/success, template_plan_generated/success,
plm_consultation/success and docgen_command/failed with the text of `e`.  The
entries of L are left as they were when all their numbers read back as
themselves. -/
theorem docgen_failure_trail (env : Env) (s : BPOService) (workflowID : String)
    (payload : GoMap) (w : World) (P : String) (enriched : EnrichedPlan) (e : GoError)
    (hP : payload.get "product_name" = some (.str P))
    (hplm : (consultPLM env s (templateFor P) w).1 = .ok enriched)
    (hdoc : (commandDocGen env s
        (buildDocumentPlan P ((payload.getString "revision").getD "A") enriched)
        (consultPLM env s (templateFor P) w).2).1 = .error e) :
    (∃ err, (executeSchematicReleasedWorkflow env s workflowID payload w).1 = .error err ∧
      err.Unwrap = some e ∧ err.Error = "DocGen command failed: " ++ e.Error) ∧
    (∀ L, (∀ k, env.writeFile k = .ok) → auditStore env s w = some (.entries L) →
      auditStore env s (executeSchematicReleasedWorkflow env s workflowID payload w).2
        = some (.entries (rewritten env 4 L ++
          [{ Timestamp := env.now w.ticks, WorkflowID := workflowID,
             Event := "schematic.released", Action := "workflow_started",
             Status := "success",
             Details := [("product_name", .str P),
                         ("revision", .str ((payload.getString "revision").getD "A"))],
             Error := "" },
           { Timestamp := env.now (w.ticks + 1), WorkflowID := workflowID,
             Event := "schematic.released", Action := "template_plan_generated",
             Status := "success", Details := [("template", (templateFor P).toJson)],
             Error := "" },
           { Timestamp := env.now (w.ticks + 2), WorkflowID := workflowID,
             Event := "schematic.released", Action := "plm_consultation",
             Status := "success", Details := [("enriched_plan", enriched.toJson)],
             Error := "" },
           { Timestamp := env.now (w.ticks + 3), WorkflowID := workflowID,
             Event := "schematic.released", Action := "docgen_command",
             Status := "failed", Details := [], Error := e.Error }])) ∧
      ((∀ e ∈ L, exactFields env e.Details) → rewritten env 4 L = L)) := by
  have hS := getString_of_get payload _ P hP
  have hrun := exec_docgen_error env s workflowID payload w P enriched e hS hplm hdoc
  refine ⟨⟨_, hrun.1, rfl, rfl⟩, ?_⟩
  intro L hw hstore
  refine ⟨?_, fun hex =>
    rewritten_of_fixed env 4 L (fun e he => reread_of_exact env e (hex e he))⟩
  unfold auditStore at hstore ⊢
  cases habs : env.abs s.auditLogPath with
  | error e => simp [habs] at hstore
  | ok p =>
    simp only [habs] at hstore ⊢
    have hfiles : ∀ (e : AuditEntry) (W : World), (auditOrLog env s e W).files p
        = some (.entries ((storedOf (W.files p)).map (reread env) ++ [e.toStored env])) :=
      fun e W => auditOrLog_files env s e W p habs (hw _)
    unfold executeSchematicReleasedWorkflow
    simp only [hS, timeNow]
    rw [consultPLM_eq env s (templateFor P) w _ (by simp [auditOrLog_calls]), hplm]
    simp only
    cases hR : payload.getString "revision" <;> simp only [hR, Option.getD] at hdoc ⊢ <;>
      rw [commandDocGen_eq env s _ (consultPLM env s (templateFor P) w).2 _
        (by simp [auditOrLog_calls, consultPLM_snd]), hdoc] <;>
      simp [hfiles, storedOf, hstore, auditOrLog_ticks, rewritten, reread,
        AuditEntry.toStored, StoredEntry.toEntry, toJsonFields, decodeFields,
        toJson_str, toJson_template, toJson_enrichedPlan, decode_str, reread_template,
        reread_enrichedPlan]

/-- C4 at the scenario with the DocGen collaborator answering 500, on a store
that holds one earlier entry. -/
theorem docgen_failure_trail_witness :
    Scenario.payload.get "product_name" = some (.str "WidgetX") ∧
    (∃ err, (executeSchematicReleasedWorkflow Scenario.envDocgenDown Scenario.svc
        "wf-1700000000" Scenario.payload Scenario.worldWithLog).1 = .error err ∧
      err.Unwrap = some (.errorf "DocGen service returned 500: render failed") ∧
      err.Error = "DocGen command failed: " ++
        (GoError.errorf "DocGen service returned 500: render failed").Error) ∧
    auditStore Scenario.envDocgenDown Scenario.svc
        (executeSchematicReleasedWorkflow Scenario.envDocgenDown Scenario.svc "wf-1700000000"
          Scenario.payload Scenario.worldWithLog).2
      = some (.entries (rewritten Scenario.envDocgenDown 4 [Scenario.earlier] ++
          [{ Timestamp := Scenario.envDocgenDown.now Scenario.worldWithLog.ticks,
             WorkflowID := "wf-1700000000",
             Event := "schematic.released", Action := "workflow_started",
             Status := "success",
             Details := [("product_name", .str "WidgetX"),
                         ("revision", .str ((Scenario.payload.getString "revision").getD "A"))],
             Error := "" },
           { Timestamp := Scenario.envDocgenDown.now (Scenario.worldWithLog.ticks + 1),
             WorkflowID := "wf-1700000000",
             Event := "schematic.released", Action := "template_plan_generated",
             Status := "success",
             Details := [("template", (templateFor "WidgetX").toJson)],
             Error := "" },
           { Timestamp := Scenario.envDocgenDown.now (Scenario.worldWithLog.ticks + 2),
             WorkflowID := "wf-1700000000",
             Event := "schematic.released", Action := "plm_consultation",
             Status := "success",
             Details := [("enriched_plan", Scenario.enriched.toJson)],
             Error := "" },
           { Timestamp := Scenario.envDocgenDown.now (Scenario.worldWithLog.ticks + 3),
             WorkflowID := "wf-1700000000",
             Event := "schematic.released", Action := "docgen_command",
             Status := "failed", Details := [],
             Error := (GoError.errorf "DocGen service returned 500: render failed").Error }])) ∧
    rewritten Scenario.envDocgenDown 4 [Scenario.earlier] = [Scenario.earlier] :=
  have h := docgen_failure_trail Scenario.envDocgenDown Scenario.svc "wf-1700000000"
    Scenario.payload Scenario.worldWithLog "WidgetX" Scenario.enriched
    (.errorf "DocGen service returned 500: render failed") rfl rfl rfl
  have hstore : auditStore Scenario.envDocgenDown Scenario.svc Scenario.worldWithLog
      = some (.entries [Scenario.earlier]) := by
    simp [auditStore, Scenario.envDocgenDown, Scenario.env, Scenario.svc, NewBPOService,
      Scenario.worldWithLog]
  ⟨rfl, h.1, (h.2 [Scenario.earlier] (fun _ => rfl) hstore).1,
    (h.2 [Scenario.earlier] (fun _ => rfl) hstore).2 (by
      simp [Scenario.earlier, exactFields, Json.exact])⟩

/-- C6: for a payload with a string product_name, when both collaborator
calls succeed and the render response carries the URL `u`, the workflow
returns no error and the response with status "success", the given workflow
ID, the message "Workflow completed successfully" and DocumentURL `u`, and,
when the audit writes succeed on a store holding the entries L, leaves the
store holding the entries of L, as the five reads and rewrites of the file
leave them, followed by exactly five entries, all with status "success":
workflow_started, template_plan_generated, plm_consultation, docgen_command
and workflow_completed, the last with `u` as final_document_url.  The
generation time of the docgen_command entry is written as the integer the
collaborator gave and stands in the file, after the fifth write has read it
into a float64 and written it again, as that float64 prints.  The entries of
L are left as they were when all their numbers read back as themselves. -/
theorem success_trail (env : Env) (s : BPOService) (workflowID : String)
    (payload : GoMap) (w : World) (P : String) (enriched : EnrichedPlan)
    (resp : DocGenResponse)
    (hP : payload.get "product_name" = some (.str P))
    (hplm : (consultPLM env s (templateFor P) w).1 = .ok enriched)
    (hdoc : (commandDocGen env s
        (buildDocumentPlan P ((payload.getString "revision").getD "A") enriched)
        (consultPLM env s (templateFor P) w).2).1 = .ok resp) :
    (executeSchematicReleasedWorkflow env s workflowID payload w).1
        = .ok { Status := "success", WorkflowID := workflowID,
                Message := "Workflow completed successfully", DocumentURL := resp.URL } ∧
    (∀ L, (∀ k, env.writeFile k = .ok) → auditStore env s w = some (.entries L) →
      auditStore env s (executeSchematicReleasedWorkflow env s workflowID payload w).2
        = some (.entries (rewritten env 5 L ++
          [{ Timestamp := env.now w.ticks, WorkflowID := workflowID,
             Event := "schematic.released", Action := "workflow_started",
             Status := "success",
             Details := [("product_name", .str P),
                         ("revision", .str ((payload.getString "revision").getD "A"))],
             Error := "" },
           { Timestamp := env.now (w.ticks + 1), WorkflowID := workflowID,
             Event := "schematic.released", Action := "template_plan_generated",
             Status := "success", Details := [("template", (templateFor P).toJson)],
             Error := "" },
           { Timestamp := env.now (w.ticks + 2), WorkflowID := workflowID,
             Event := "schematic.released", Action := "plm_consultation",
             Status := "success", Details := [("enriched_plan", enriched.toJson)],
             Error := "" },
           { Timestamp := env.now (w.ticks + 3), WorkflowID := workflowID,
             Event := "schematic.released", Action := "docgen_command",
             Status := "success",
             Details := [("document_url", .str resp.URL),
                         ("filename", .str resp.Filename),
                         ("generation_time_ms",
                           .number (env.formatFloat (env.parseFloat resp.GenerationTimeMs)))],
             Error := "" },
           { Timestamp := env.now (w.ticks + 4), WorkflowID := workflowID,
             Event := "schematic.released", Action := "workflow_completed",
             Status := "success", Details := [("final_document_url", .str resp.URL)],
             Error := "" }])) ∧
      ((∀ e ∈ L, exactFields env e.Details) → rewritten env 5 L = L)) := by
  have hS := getString_of_get payload _ P hP
  have hrun := exec_success env s workflowID payload w P enriched resp hS hplm hdoc
  refine ⟨hrun.1, ?_⟩
  intro L hw hstore
  refine ⟨?_, fun hex =>
    rewritten_of_fixed env 5 L (fun e he => reread_of_exact env e (hex e he))⟩
  unfold auditStore at hstore ⊢
  cases habs : env.abs s.auditLogPath with
  | error e => simp [habs] at hstore
  | ok p =>
    simp only [habs] at hstore ⊢
    have hfiles : ∀ (e : AuditEntry) (W : World), (auditOrLog env s e W).files p
        = some (.entries ((storedOf (W.files p)).map (reread env) ++ [e.toStored env])) :=
      fun e W => auditOrLog_files env s e W p habs (hw _)
    unfold executeSchematicReleasedWorkflow
    simp only [hS, timeNow]
    rw [consultPLM_eq env s (templateFor P) w _ (by simp [auditOrLog_calls]), hplm]
    simp only
    cases hR : payload.getString "revision" <;> simp only [hR, Option.getD] at hdoc ⊢ <;>
      rw [commandDocGen_eq env s _ (consultPLM env s (templateFor P) w).2 _
        (by simp [auditOrLog_calls, consultPLM_snd]), hdoc] <;>
      simp [hfiles, storedOf, hstore, auditOrLog_ticks, rewritten, reread,
        AuditEntry.toStored, StoredEntry.toEntry, toJsonFields, decodeFields,
        toJson_str, toJson_int, toJson_float64, toJson_template, toJson_enrichedPlan,
        decode_str, decode_number, reread_template, reread_enrichedPlan]

/-- C6 at the scenario of the specification, on a store that holds one
earlier entry. -/
theorem success_trail_witness :
    Scenario.payload.get "product_name" = some (.str "WidgetX") ∧
    (executeSchematicReleasedWorkflow Scenario.env Scenario.svc "wf-1700000000"
        Scenario.payload Scenario.worldWithLog).1
      = .ok { Status := "success", WorkflowID := "wf-1700000000",
              Message := "Workflow completed successfully",
              DocumentURL := Scenario.rendered.URL } ∧
    auditStore Scenario.env Scenario.svc
        (executeSchematicReleasedWorkflow Scenario.env Scenario.svc "wf-1700000000"
          Scenario.payload Scenario.worldWithLog).2
      = some (.entries (rewritten Scenario.env 5 [Scenario.earlier] ++
          [{ Timestamp := Scenario.env.now Scenario.worldWithLog.ticks,
             WorkflowID := "wf-1700000000",
             Event := "schematic.released", Action := "workflow_started",
             Status := "success",
             Details := [("product_name", .str "WidgetX"),
                         ("revision", .str ((Scenario.payload.getString "revision").getD "A"))],
             Error := "" },
           { Timestamp := Scenario.env.now (Scenario.worldWithLog.ticks + 1),
             WorkflowID := "wf-1700000000",
             Event := "schematic.released", Action := "template_plan_generated",
             Status := "success",
             Details := [("template", (templateFor "WidgetX").toJson)],
             Error := "" },
           { Timestamp := Scenario.env.now (Scenario.worldWithLog.ticks + 2),
             WorkflowID := "wf-1700000000",
             Event := "schematic.released", Action := "plm_consultation",
             Status := "success",
             Details := [("enriched_plan", Scenario.enriched.toJson)],
             Error := "" },
           { Timestamp := Scenario.env.now (Scenario.worldWithLog.ticks + 3),
             WorkflowID := "wf-1700000000",
             Event := "schematic.released", Action := "docgen_command",
             Status := "success",
             Details := [("document_url", .str Scenario.rendered.URL),
                         ("filename", .str Scenario.rendered.Filename),
                         ("generation_time_ms",
                           .number (Scenario.env.formatFloat
                             (Scenario.env.parseFloat Scenario.rendered.GenerationTimeMs)))],
             Error := "" },
           { Timestamp := Scenario.env.now (Scenario.worldWithLog.ticks + 4),
             WorkflowID := "wf-1700000000",
             Event := "schematic.released", Action := "workflow_completed",
             Status := "success",
             Details := [("final_document_url", .str Scenario.rendered.URL)],
             Error := "" }])) ∧
    rewritten Scenario.env 5 [Scenario.earlier] = [Scenario.earlier] ∧
    Scenario.env.formatFloat (Scenario.env.parseFloat Scenario.rendered.GenerationTimeMs)
      = 120 :=
  have h := success_trail Scenario.env Scenario.svc "wf-1700000000"
    Scenario.payload Scenario.worldWithLog "WidgetX" Scenario.enriched Scenario.rendered
    rfl rfl rfl
  have hstore : auditStore Scenario.env Scenario.svc Scenario.worldWithLog
      = some (.entries [Scenario.earlier]) := by
    simp [auditStore, Scenario.env, Scenario.svc, NewBPOService, Scenario.worldWithLog]
  ⟨rfl, h.1, (h.2 [Scenario.earlier] (fun _ => rfl) hstore).1,
    (h.2 [Scenario.earlier] (fun _ => rfl) hstore).2 (by
      simp [Scenario.earlier, exactFields, Json.exact]), by decide⟩

/-- C7, amended: a successful writeAuditEntry(E) on a store that parses as
the list L leaves the store holding the entries of L, in order, each as the
read and rewrite leaves it, followed by E as it is encoded.  The entries of L
are unchanged when all their numbers read back as themselves; a number that
is not a float64 is replaced by the float64 nearest to it.  On a store that is
missing or unreadable, empty, or unparsable, it leaves the store holding E
alone. -/
theorem audit_append (env : Env) (s : BPOService) (E : AuditEntry) (w : World)
    (hsucc : (writeAuditEntry env s E w).1 = none) :
    (∀ L, auditStore env s w = some (.entries L) →
      auditStore env s (writeAuditEntry env s E w).2
        = some (.entries (L.map (reread env) ++ [E.toStored env])) ∧
      ((∀ e ∈ L, exactFields env e.Details) → L.map (reread env) = L)) ∧
    (auditStore env s w = none →
      auditStore env s (writeAuditEntry env s E w).2 = some (.entries [E.toStored env])) ∧
    (∀ why, auditStore env s w = some (.garbage "" why) →
      auditStore env s (writeAuditEntry env s E w).2 = some (.entries [E.toStored env])) ∧
    (∀ bytes why, auditStore env s w = some (.garbage bytes why) →
      auditStore env s (writeAuditEntry env s E w).2
        = some (.entries [E.toStored env])) := by
  unfold auditStore
  cases habs : env.abs s.auditLogPath with
  | error e => simp [writeAuditEntry, habs] at hsucc
  | ok p =>
    simp only
    cases hw : env.writeFile (readExisting env p w).2.writes with
    | failed err left =>
      simp [writeAuditEntry, habs, jsonMarshalIndent, osWriteFile, hw] at hsucc
    | ok =>
      have hfile := (writeAuditEntry_files env s E w p habs hw).2
      rw [hfile]
      refine ⟨?_, ?_, ?_, ?_⟩
      · intro L hL
        rw [hL]
        refine ⟨rfl, fun hex => ?_⟩
        conv_rhs => rw [← List.map_id L]
        exact List.map_congr_left (fun e he => reread_of_exact env e (hex e he))
      · intro hnone
        rw [hnone]
        rfl
      · intro why hg
        rw [hg]
        rfl
      · intro bytes why hg
        rw [hg]
        rfl

/-- C7 at a store that holds one earlier entry, made of strings. -/
theorem audit_append_witness :
    (writeAuditEntry Scenario.env Scenario.svc Scenario.started Scenario.worldWithLog).1
      = none ∧
    auditStore Scenario.env Scenario.svc
        (writeAuditEntry Scenario.env Scenario.svc Scenario.started Scenario.worldWithLog).2
      = some (.entries ([Scenario.earlier].map (reread Scenario.env) ++
          [Scenario.started.toStored Scenario.env])) ∧
    [Scenario.earlier].map (reread Scenario.env) = [Scenario.earlier] :=
  have h := (audit_append Scenario.env Scenario.svc Scenario.started Scenario.worldWithLog
    rfl).1 [Scenario.earlier] (by
      simp [auditStore, Scenario.env, Scenario.svc, NewBPOService, Scenario.worldWithLog])
  ⟨rfl, h.1, h.2 (by simp [Scenario.earlier, exactFields, Json.exact])⟩

/-- C7, the claim as stated fails: a prior entry does not always stay as it
was.  On a store whose entry holds the generation time 9007199254740993, a
successful append writes that entry back with 9007199254740992, since the
details are read into float64 values and written from them. -/
theorem audit_append_counterexample :
    auditStore Scenario.env Scenario.svc Scenario.worldWithLongLog
      = some (.entries [Scenario.earlierLong]) ∧
    (writeAuditEntry Scenario.env Scenario.svc Scenario.started Scenario.worldWithLongLog).1
      = none ∧
    auditStore Scenario.env Scenario.svc
        (writeAuditEntry Scenario.env Scenario.svc Scenario.started
          Scenario.worldWithLongLog).2
      = some (.entries
          [{ Timestamp := { sec := 1600000000, nsec := 0 }, WorkflowID := "wf-1600000000",
             Event := "schematic.released", Action := "docgen_command",
             Status := "success",
             Details := [("document_url", .str "gcs://bucket/e.docx"),
                         ("filename", .str "e.docx"),
                         ("generation_time_ms", .number 9007199254740992)],
             Error := "" },
           { Timestamp := { sec := 1700000000, nsec := 0 }, WorkflowID := "wf-1700000000",
             Event := "schematic.released", Action := "workflow_started",
             Status := "success",
             Details := [("product_name", .str "WidgetX"), ("revision", .str "B")],
             Error := "" }]) ∧
    auditStore Scenario.env Scenario.svc
        (writeAuditEntry Scenario.env Scenario.svc Scenario.started
          Scenario.worldWithLongLog).2
      ≠ some (.entries ([Scenario.earlierLong] ++
          [Scenario.started.toStored Scenario.env])) := by
  have hafter : auditStore Scenario.env Scenario.svc
      (writeAuditEntry Scenario.env Scenario.svc Scenario.started
        Scenario.worldWithLongLog).2
      = some (.entries
          [{ Timestamp := { sec := 1600000000, nsec := 0 }, WorkflowID := "wf-1600000000",
             Event := "schematic.released", Action := "docgen_command",
             Status := "success",
             Details := [("document_url", .str "gcs://bucket/e.docx"),
                         ("filename", .str "e.docx"),
                         ("generation_time_ms", .number 9007199254740992)],
             Error := "" },
           { Timestamp := { sec := 1700000000, nsec := 0 }, WorkflowID := "wf-1700000000",
             Event := "schematic.released", Action := "workflow_started",
             Status := "success",
             Details := [("product_name", .str "WidgetX"), ("revision", .str "B")],
             Error := "" }]) := rfl
  refine ⟨rfl, rfl, hafter, ?_⟩
  rw [hafter]
  intro h
  simp [Scenario.earlierLong] at h

/-- C8: audit-write failures never surface.  Two runs of the workflow on the
same payload, against collaborators that behave the same and after the same
requests, return the same response or the same error and issue the same
requests, whatever differs between them in the audit store: the path
resolution, the outcome of every write, the content of the files, the clock. -/
theorem audit_failures_invisible (env1 env2 : Env) (s : BPOService) (workflowID : String)
    (payload : GoMap) (w1 w2 : World)
    (hpost : env1.post = env2.post)
    (hplmdec : env1.decodeEnriched = env2.decodeEnriched)
    (hdocdec : env1.decodeDocGen = env2.decodeDocGen)
    (hcalls : w1.calls = w2.calls) :
    (executeSchematicReleasedWorkflow env1 s workflowID payload w1).1
      = (executeSchematicReleasedWorkflow env2 s workflowID payload w2).1 ∧
    (executeSchematicReleasedWorkflow env1 s workflowID payload w1).2.calls
      = (executeSchematicReleasedWorkflow env2 s workflowID payload w2).2.calls := by
  cases hS : payload.getString "product_name" with
  | none =>
    rw [exec_invalid env1 s workflowID payload w1 hS,
      exec_invalid env2 s workflowID payload w2 hS]
    exact ⟨rfl, hcalls⟩
  | some P =>
    have hplm := consultPLM_fst_congr env1 env2 s (templateFor P) w1 w2 hpost hplmdec hcalls
    cases h1 : (consultPLM env1 s (templateFor P) w1).1 with
    | error err =>
      have h2 : (consultPLM env2 s (templateFor P) w2).1 = .error err := by
        rw [← hplm]; exact h1
      have r1 := exec_plm_error env1 s workflowID payload w1 P err hS h1
      have r2 := exec_plm_error env2 s workflowID payload w2 P err hS h2
      rw [r1.1, r1.2, r2.1, r2.2, hcalls]
      exact ⟨rfl, rfl⟩
    | ok enriched =>
      have h2 : (consultPLM env2 s (templateFor P) w2).1 = .ok enriched := by
        rw [← hplm]; exact h1
      have hafter : (consultPLM env1 s (templateFor P) w1).2.calls
          = (consultPLM env2 s (templateFor P) w2).2.calls := by
        simp [consultPLM_snd, hcalls]
      have hdoc := commandDocGen_fst_congr env1 env2 s
        (buildDocumentPlan P ((payload.getString "revision").getD "A") enriched)
        (consultPLM env1 s (templateFor P) w1).2 (consultPLM env2 s (templateFor P) w2).2
        hpost hdocdec hafter
      cases d1 : (commandDocGen env1 s
          (buildDocumentPlan P ((payload.getString "revision").getD "A") enriched)
          (consultPLM env1 s (templateFor P) w1).2).1 with
      | error err =>
        have d2 := hdoc ▸ d1
        have r1 := exec_docgen_error env1 s workflowID payload w1 P enriched err hS h1 d1
        have r2 := exec_docgen_error env2 s workflowID payload w2 P enriched err hS h2 d2
        rw [r1.1, r1.2, r2.1, r2.2, hcalls]
        exact ⟨rfl, rfl⟩
      | ok resp =>
        have d2 := hdoc ▸ d1
        have r1 := exec_success env1 s workflowID payload w1 P enriched resp hS h1 d1
        have r2 := exec_success env2 s workflowID payload w2 P enriched resp hS h2 d2
        rw [r1.1, r1.2, r2.1, r2.2, hcalls]
        exact ⟨rfl, rfl⟩

/-- C8 at the scenario: a run on a working disk and a run on a disk that
rejects every write. -/
theorem audit_failures_invisible_witness :
    (executeSchematicReleasedWorkflow Scenario.env Scenario.svc "wf-1700000000"
        Scenario.payload Scenario.worldWithLog).1
      = (executeSchematicReleasedWorkflow Scenario.envDiskDown Scenario.svc "wf-1700000000"
        Scenario.payload Scenario.world).1 ∧
    (executeSchematicReleasedWorkflow Scenario.env Scenario.svc "wf-1700000000"
        Scenario.payload Scenario.worldWithLog).2.calls
      = (executeSchematicReleasedWorkflow Scenario.envDiskDown Scenario.svc "wf-1700000000"
        Scenario.payload Scenario.world).2.calls :=
  audit_failures_invisible Scenario.env Scenario.envDiskDown Scenario.svc "wf-1700000000"
    Scenario.payload Scenario.worldWithLog Scenario.world rfl rfl rfl rfl

/-- C9: for a trigger event name other than "schematic.released" the
dispatcher answers with the error "unknown trigger event: " followed by the
name, and no engine step runs: no file is touched, nothing is written and no
request is issued. -/
theorem unknown_event_rejected (env : Env) (s : BPOService) (body : String) (w : World)
    (request : WorkflowRequest)
    (hdec : env.decodeRequest body = .ok request)
    (hne : request.TriggerEvent ≠ "schematic.released") :
    (executeWorkflowHandler env s body w).1.body
      = .errorBody "workflow_failed" ("unknown trigger event: " ++ request.TriggerEvent) ∧
    (executeWorkflowHandler env s body w).2.files = w.files ∧
    (executeWorkflowHandler env s body w).2.writes = w.writes ∧
    (executeWorkflowHandler env s body w).2.calls = w.calls := by
  simp [executeWorkflowHandler, hdec, hne, generateWorkflowID, timeNow, World.logf,
    GoError.Error]

/-- C9 at the event "schematic.archived". -/
theorem unknown_event_rejected_witness :
    (executeWorkflowHandler Scenario.env Scenario.svc "archived" Scenario.worldWithLog).1.body
      = .errorBody "workflow_failed" ("unknown trigger event: " ++ "schematic.archived") ∧
    (executeWorkflowHandler Scenario.env Scenario.svc "archived" Scenario.worldWithLog).2.files
      = Scenario.worldWithLog.files ∧
    (executeWorkflowHandler Scenario.env Scenario.svc "archived" Scenario.worldWithLog).2.writes
      = Scenario.worldWithLog.writes ∧
    (executeWorkflowHandler Scenario.env Scenario.svc "archived" Scenario.worldWithLog).2.calls
      = Scenario.worldWithLog.calls :=
  unknown_event_rejected Scenario.env Scenario.svc "archived" Scenario.worldWithLog
    { TriggerEvent := "schematic.archived", Payload := [] } rfl (by decide)

/-- C10, the claim as stated fails: with the empty string as product_name
the workflow passes validation.  Against a PLM collaborator that answers 404
it returns the PLM failure, not the validation error that the payload
without product_name gets, and the audit store, missing before, holds three
entries for the run afterwards. -/
theorem empty_product_name_counterexample :
    Scenario.payloadEmptyName.get "product_name" = some (.str "") ∧
    (executeSchematicReleasedWorkflow Scenario.envPlmDown Scenario.svc "wf-1700000000"
        Scenario.payloadEmptyName Scenario.world).1
      = .error (.wrapf "PLM consultation failed: "
          (.errorf "PLM service returned 404: product not found")) ∧
    (executeSchematicReleasedWorkflow Scenario.envPlmDown Scenario.svc "wf-1700000000"
        [] Scenario.world).1
      = .error (.errorf "product_name is required in payload") ∧
    (executeSchematicReleasedWorkflow Scenario.envPlmDown Scenario.svc "wf-1700000000"
        Scenario.payloadEmptyName Scenario.world).1
      ≠ (executeSchematicReleasedWorkflow Scenario.envPlmDown Scenario.svc "wf-1700000000"
        [] Scenario.world).1 ∧
    auditStore Scenario.envPlmDown Scenario.svc Scenario.world = none ∧
    auditStore Scenario.envPlmDown Scenario.svc
        (executeSchematicReleasedWorkflow Scenario.envPlmDown Scenario.svc "wf-1700000000"
          Scenario.payloadEmptyName Scenario.world).2
      = some (.entries
          [{ Timestamp := { sec := 1700000000, nsec := 0 }, WorkflowID := "wf-1700000000",
             Event := "schematic.released", Action := "workflow_started",
             Status := "success",
             Details := [("product_name", .str ""), ("revision", .str "A")],
             Error := "" },
           { Timestamp := { sec := 1700000001, nsec := 0 }, WorkflowID := "wf-1700000000",
             Event := "schematic.released", Action := "template_plan_generated",
             Status := "success",
             Details := [("template", .object
               [("product", .str ""),
                ("components", .array
                  [.object [("name", .str "PowerTest"), ("voltage", .str "UNRESOLVED")]])])],
             Error := "" },
           { Timestamp := { sec := 1700000002, nsec := 0 }, WorkflowID := "wf-1700000000",
             Event := "schematic.released", Action := "plm_consultation",
             Status := "failed", Details := [],
             Error := "PLM service returned 404: product not found" }]) := by
  have hempty : (executeSchematicReleasedWorkflow Scenario.envPlmDown Scenario.svc
      "wf-1700000000" Scenario.payloadEmptyName Scenario.world).1
      = .error (.wrapf "PLM consultation failed: "
          (.errorf "PLM service returned 404: product not found")) := rfl
  have habsent : (executeSchematicReleasedWorkflow Scenario.envPlmDown Scenario.svc
      "wf-1700000000" [] Scenario.world).1
      = .error (.errorf "product_name is required in payload") := rfl
  refine ⟨rfl, hempty, habsent, ?_, rfl, rfl⟩
  rw [hempty, habsent]
  intro h
  cases h

/-- C10, amended: a payload whose product_name is the empty string passes
validation.  The workflow does not return the validation error; it runs with
the product name "": its first request is the enrichment request for the
product "", and, when the audit writes succeed on a store holding the entries
L, the store afterwards holds the entries of L, as the reads and rewrites of
the file leave them, followed by the workflow_started entry with product_name
"" and the entries of the later steps. -/
theorem empty_product_name_runs (env : Env) (s : BPOService) (workflowID : String)
    (payload : GoMap) (w : World)
    (hP : payload.get "product_name" = some (.str "")) :
    (executeSchematicReleasedWorkflow env s workflowID payload w).1
        ≠ .error (.errorf "product_name is required in payload") ∧
    (∃ rest, (executeSchematicReleasedWorkflow env s workflowID payload w).2.calls
        = w.calls ++ plmCall s (templateFor "") :: rest) ∧
    (∀ L, (∀ k, env.writeFile k = .ok) → auditStore env s w = some (.entries L) →
      ∃ k rest,
        auditStore env s (executeSchematicReleasedWorkflow env s workflowID payload w).2
          = some (.entries (rewritten env k L ++
              { Timestamp := env.now w.ticks, WorkflowID := workflowID,
                Event := "schematic.released", Action := "workflow_started",
                Status := "success",
                Details := [("product_name", .str ""),
                            ("revision", .str ((payload.getString "revision").getD "A"))],
                Error := "" } :: rest)) ∧
        ((∀ e ∈ L, exactFields env e.Details) → rewritten env k L = L)) := by
  have hS := getString_of_get payload _ "" hP
  cases h1 : (consultPLM env s (templateFor "") w).1 with
  | error err =>
    have hrun := exec_plm_error env s workflowID payload w "" err hS h1
    refine ⟨?_, ⟨[], hrun.2⟩, ?_⟩
    · rw [hrun.1]
      intro h
      cases h
    intro L hw hstore
    refine ⟨3, ?_⟩
    rw [exists_and_right]
    refine ⟨?_, fun hex =>
      rewritten_of_fixed env 3 L (fun e he => reread_of_exact env e (hex e he))⟩
    unfold auditStore at hstore ⊢
    cases habs : env.abs s.auditLogPath with
    | error e => simp [habs] at hstore
    | ok p =>
      simp only [habs] at hstore ⊢
      have hfiles : ∀ (e : AuditEntry) (W : World), (auditOrLog env s e W).files p
          = some (.entries ((storedOf (W.files p)).map (reread env) ++ [e.toStored env])) :=
        fun e W => auditOrLog_files env s e W p habs (hw _)
      unfold executeSchematicReleasedWorkflow
      simp only [hS, timeNow]
      rw [consultPLM_eq env s (templateFor "") w _ (by simp [auditOrLog_calls]), h1]
      cases hR : payload.getString "revision" <;>
        simp [hfiles, storedOf, hstore, auditOrLog_ticks, rewritten, reread,
          AuditEntry.toStored, StoredEntry.toEntry, toJsonFields, decodeFields,
          toJson_str, toJson_template, decode_str, reread_template]
  | ok enriched =>
    have hcalls := exec_calls_enriched env s workflowID payload w "" enriched hS h1
    refine ⟨?_, ⟨_, hcalls⟩, ?_⟩
    · cases d1 : (commandDocGen env s
          (buildDocumentPlan "" ((payload.getString "revision").getD "A") enriched)
          (consultPLM env s (templateFor "") w).2).1 with
      | error err =>
        rw [(exec_docgen_error env s workflowID payload w "" enriched err hS h1 d1).1]
        intro h; cases h
      | ok resp =>
        rw [(exec_success env s workflowID payload w "" enriched resp hS h1 d1).1]
        intro h; cases h
    · intro L hw hstore
      unfold auditStore at hstore ⊢
      cases habs : env.abs s.auditLogPath with
      | error e => simp [habs] at hstore
      | ok p =>
        simp only [habs] at hstore ⊢
        have hfiles : ∀ (e : AuditEntry) (W : World), (auditOrLog env s e W).files p
            = some (.entries ((storedOf (W.files p)).map (reread env) ++ [e.toStored env])) :=
          fun e W => auditOrLog_files env s e W p habs (hw _)
        cases d1 : (commandDocGen env s
            (buildDocumentPlan "" ((payload.getString "revision").getD "A") enriched)
            (consultPLM env s (templateFor "") w).2).1 with
        | error err =>
          refine ⟨4, ?_⟩
          rw [exists_and_right]
          refine ⟨?_, fun hex =>
            rewritten_of_fixed env 4 L (fun e he => reread_of_exact env e (hex e he))⟩
          unfold executeSchematicReleasedWorkflow
          simp only [hS, timeNow]
          rw [consultPLM_eq env s (templateFor "") w _ (by simp [auditOrLog_calls]), h1]
          simp only
          cases hR : payload.getString "revision" <;> simp only [hR, Option.getD] at d1 ⊢ <;>
            rw [commandDocGen_eq env s _ (consultPLM env s (templateFor "") w).2 _
              (by simp [auditOrLog_calls, consultPLM_snd]), d1] <;>
            simp [hfiles, storedOf, hstore, auditOrLog_ticks, rewritten, reread,
              AuditEntry.toStored, StoredEntry.toEntry, toJsonFields, decodeFields,
              toJson_str, toJson_template, toJson_enrichedPlan, decode_str,
              reread_template, reread_enrichedPlan]
        | ok resp =>
          refine ⟨5, ?_⟩
          rw [exists_and_right]
          refine ⟨?_, fun hex =>
            rewritten_of_fixed env 5 L (fun e he => reread_of_exact env e (hex e he))⟩
          unfold executeSchematicReleasedWorkflow
          simp only [hS, timeNow]
          rw [consultPLM_eq env s (templateFor "") w _ (by simp [auditOrLog_calls]), h1]
          simp only
          cases hR : payload.getString "revision" <;> simp only [hR, Option.getD] at d1 ⊢ <;>
            rw [commandDocGen_eq env s _ (consultPLM env s (templateFor "") w).2 _
              (by simp [auditOrLog_calls, consultPLM_snd]), d1] <;>
            simp [hfiles, storedOf, hstore, auditOrLog_ticks, rewritten, reread,
              AuditEntry.toStored, StoredEntry.toEntry, toJsonFields, decodeFields,
              toJson_str, toJson_int, toJson_float64, toJson_template,
              toJson_enrichedPlan, decode_str, decode_number, reread_template,
              reread_enrichedPlan]

/-- C10, amended, at the payload with the empty product name and a PLM
collaborator that answers 404. -/
theorem empty_product_name_runs_witness :
    Scenario.payloadEmptyName.get "product_name" = some (.str "") ∧
    (executeSchematicReleasedWorkflow Scenario.envPlmDown Scenario.svc "wf-1700000000"
        Scenario.payloadEmptyName Scenario.worldWithLog).1
      ≠ .error (.errorf "product_name is required in payload") ∧
    (∃ rest, (executeSchematicReleasedWorkflow Scenario.envPlmDown Scenario.svc
        "wf-1700000000" Scenario.payloadEmptyName Scenario.worldWithLog).2.calls
      = Scenario.worldWithLog.calls ++ plmCall Scenario.svc (templateFor "") :: rest) ∧
    (∃ k rest,
      auditStore Scenario.envPlmDown Scenario.svc
          (executeSchematicReleasedWorkflow Scenario.envPlmDown Scenario.svc "wf-1700000000"
            Scenario.payloadEmptyName Scenario.worldWithLog).2
        = some (.entries (rewritten Scenario.envPlmDown k [Scenario.earlier] ++
            { Timestamp := Scenario.envPlmDown.now Scenario.worldWithLog.ticks,
              WorkflowID := "wf-1700000000",
              Event := "schematic.released", Action := "workflow_started",
              Status := "success",
              Details := [("product_name", .str ""),
                          ("revision",
                            .str ((Scenario.payloadEmptyName.getString "revision").getD "A"))],
              Error := "" } :: rest)) ∧
      ((∀ e ∈ [Scenario.earlier], exactFields Scenario.envPlmDown e.Details) →
        rewritten Scenario.envPlmDown k [Scenario.earlier] = [Scenario.earlier])) :=
  have h := empty_product_name_runs Scenario.envPlmDown Scenario.svc "wf-1700000000"
    Scenario.payloadEmptyName Scenario.worldWithLog rfl
  ⟨rfl, h.1, h.2.1, h.2.2 [Scenario.earlier] (fun _ => rfl) (by
    simp [auditStore, Scenario.envPlmDown, Scenario.env, Scenario.svc, NewBPOService,
      Scenario.worldWithLog])⟩

/-! ## The dispatcher -/

/-- The response of the dispatcher to a request that decodes: status 500 with
the error text for an error of the dispatch, status 200 with the response
otherwise. -/
theorem handler_response (env : Env) (s : BPOService) (body : String) (w : World)
    (request : WorkflowRequest) (hdec : env.decodeRequest body = .ok request) :
    ∃ w1 : World, w1.calls = w.calls ∧
      (executeWorkflowHandler env s body w).1 =
        match (if request.TriggerEvent = "schematic.released" then
            (executeSchematicReleasedWorkflow env s
              ("wf-" ++ toString (env.now w.ticks).Unix) request.Payload w1).1
          else .error (.errorf ("unknown trigger event: " ++ request.TriggerEvent))) with
        | .error err =>
          { status := StatusInternalServerError,
            body := .errorBody "workflow_failed" err.Error }
        | .ok response => { status := StatusOK, body := .workflow response } := by
  refine ⟨({ w with ticks := w.ticks + 1 } : World).logf
    ("Executing workflow " ++ ("wf-" ++ toString (env.now w.ticks).Unix) ++ " for event: "
      ++ request.TriggerEvent), rfl, ?_⟩
  unfold executeWorkflowHandler
  simp only [hdec, generateWorkflowID, timeNow]
  split_ifs with hev
  · generalize (executeSchematicReleasedWorkflow env s _ request.Payload _).1 = r
    cases r <;> rfl
  · rfl


/-- The workflow at any world with the request history of `w0`, when the
enrichment call fails. -/
theorem exec_plm_error_at (env : Env) (s : BPOService) (workflowID : String)
    (payload : GoMap) (w0 w : World) (P : String) (err : GoError)
    (hcalls : w.calls = w0.calls)
    (hP : payload.getString "product_name" = some P)
    (hplm : (consultPLM env s (templateFor P) w0).1 = .error err) :
    (executeSchematicReleasedWorkflow env s workflowID payload w).1
      = .error (.wrapf "PLM consultation failed: " err) := by
  have h := consultPLM_fst_congr env env s (templateFor P) w w0 rfl rfl hcalls
  exact (exec_plm_error env s workflowID payload w P err hP (h.trans hplm)).1

/-- The workflow at any world with the request history of `w0`, when the
render call fails. -/
theorem exec_docgen_error_at (env : Env) (s : BPOService) (workflowID : String)
    (payload : GoMap) (w0 w : World) (P : String) (enriched : EnrichedPlan) (err : GoError)
    (hcalls : w.calls = w0.calls)
    (hP : payload.getString "product_name" = some P)
    (hplm : (consultPLM env s (templateFor P) w0).1 = .ok enriched)
    (hdoc : (commandDocGen env s
        (buildDocumentPlan P ((payload.getString "revision").getD "A") enriched)
        (consultPLM env s (templateFor P) w0).2).1 = .error err) :
    (executeSchematicReleasedWorkflow env s workflowID payload w).1
      = .error (.wrapf "DocGen command failed: " err) := by
  have h := consultPLM_fst_congr env env s (templateFor P) w w0 rfl rfl hcalls
  have hafter : (consultPLM env s (templateFor P) w).2.calls
      = (consultPLM env s (templateFor P) w0).2.calls := by
    simp [consultPLM_snd, hcalls]
  have hd := commandDocGen_fst_congr env env s
    (buildDocumentPlan P ((payload.getString "revision").getD "A") enriched)
    (consultPLM env s (templateFor P) w).2 (consultPLM env s (templateFor P) w0).2
    rfl rfl hafter
  exact (exec_docgen_error env s workflowID payload w P enriched err hP (h.trans hplm)
    (hd.trans hdoc)).1

/-- The workflow at any world with the request history of `w0`, when both
calls succeed. -/
theorem exec_success_at (env : Env) (s : BPOService) (workflowID : String)
    (payload : GoMap) (w0 w : World) (P : String) (enriched : EnrichedPlan)
    (resp : DocGenResponse)
    (hcalls : w.calls = w0.calls)
    (hP : payload.getString "product_name" = some P)
    (hplm : (consultPLM env s (templateFor P) w0).1 = .ok enriched)
    (hdoc : (commandDocGen env s
        (buildDocumentPlan P ((payload.getString "revision").getD "A") enriched)
        (consultPLM env s (templateFor P) w0).2).1 = .ok resp) :
    (executeSchematicReleasedWorkflow env s workflowID payload w).1
      = .ok { Status := "success", WorkflowID := workflowID,
              Message := "Workflow completed successfully", DocumentURL := resp.URL } := by
  have h := consultPLM_fst_congr env env s (templateFor P) w w0 rfl rfl hcalls
  have hafter : (consultPLM env s (templateFor P) w).2.calls
      = (consultPLM env s (templateFor P) w0).2.calls := by
    simp [consultPLM_snd, hcalls]
  have hd := commandDocGen_fst_congr env env s
    (buildDocumentPlan P ((payload.getString "revision").getD "A") enriched)
    (consultPLM env s (templateFor P) w).2 (consultPLM env s (templateFor P) w0).2
    rfl rfl hafter
  exact (exec_success env s workflowID payload w P enriched resp hP (h.trans hplm)
    (hd.trans hdoc)).1

/-- C11, amended: the dispatcher answers every failed run with status 500,
the code "workflow_failed" and the error text as message, be the failure a
missing product name, an unknown trigger event or a collaborator failure; a
successful run yields status 200 with the workflow response as body. -/
theorem dispatcher_status (env : Env) (s : BPOService) (body : String) (w : World)
    (request : WorkflowRequest) (hdec : env.decodeRequest body = .ok request) :
    (request.TriggerEvent ≠ "schematic.released" →
      (executeWorkflowHandler env s body w).1
        = { status := 500,
            body := .errorBody "workflow_failed"
              ("unknown trigger event: " ++ request.TriggerEvent) }) ∧
    (request.TriggerEvent = "schematic.released" →
      ((∀ P, request.Payload.get "product_name" ≠ some (.str P)) →
        (executeWorkflowHandler env s body w).1
          = { status := 500,
              body := .errorBody "workflow_failed" "product_name is required in payload" }) ∧
      (∀ P, request.Payload.get "product_name" = some (.str P) →
        (∀ err, (consultPLM env s (templateFor P) w).1 = .error err →
          (executeWorkflowHandler env s body w).1
            = { status := 500,
                body := .errorBody "workflow_failed"
                  ("PLM consultation failed: " ++ err.Error) }) ∧
        (∀ enriched, (consultPLM env s (templateFor P) w).1 = .ok enriched →
          (∀ err, (commandDocGen env s
              (buildDocumentPlan P ((request.Payload.getString "revision").getD "A") enriched)
              (consultPLM env s (templateFor P) w).2).1 = .error err →
            (executeWorkflowHandler env s body w).1
              = { status := 500,
                  body := .errorBody "workflow_failed"
                    ("DocGen command failed: " ++ err.Error) }) ∧
          (∀ resp, (commandDocGen env s
              (buildDocumentPlan P ((request.Payload.getString "revision").getD "A") enriched)
              (consultPLM env s (templateFor P) w).2).1 = .ok resp →
            (executeWorkflowHandler env s body w).1
              = { status := 200,
                  body := .workflow
                    { Status := "success",
                      WorkflowID := "wf-" ++ toString (env.now w.ticks).Unix,
                      Message := "Workflow completed successfully",
                      DocumentURL := resp.URL } })))) := by
  obtain ⟨w1, hcalls, hresp⟩ := handler_response env s body w request hdec
  rw [hresp]
  refine ⟨fun hne => by simp [hne, GoError.Error, StatusInternalServerError], fun hev => ?_⟩
  simp only [hev, if_true]
  refine ⟨fun hP => ?_, fun P hP => ⟨fun err hplm => ?_, fun enriched hplm =>
    ⟨fun err hdoc => ?_, fun resp hdoc => ?_⟩⟩⟩
  · rw [exec_invalid env s _ request.Payload w1 (getString_eq_none _ _ hP)]
    rfl
  · rw [exec_plm_error_at env s _ request.Payload w w1 P err hcalls
      (getString_of_get _ _ P hP) hplm]
    rfl
  · rw [exec_docgen_error_at env s _ request.Payload w w1 P enriched err hcalls
      (getString_of_get _ _ P hP) hplm hdoc]
    rfl
  · rw [exec_success_at env s _ request.Payload w w1 P enriched resp hcalls
      (getString_of_get _ _ P hP) hplm hdoc]
    rfl

/-- C11 at five triggers: an unknown event, a payload without product name,
a PLM collaborator that answers 404, a DocGen collaborator that answers 500,
and the run in which both collaborators answer. -/
theorem dispatcher_status_witness :
    (executeWorkflowHandler (Scenario.withTrigger Scenario.env Scenario.triggerArchived)
        Scenario.svc "" Scenario.world).1
      = { status := 500,
          body := .errorBody "workflow_failed"
            ("unknown trigger event: " ++ "schematic.archived") } ∧
    (executeWorkflowHandler (Scenario.withTrigger Scenario.env Scenario.triggerNoName)
        Scenario.svc "" Scenario.world).1
      = { status := 500,
          body := .errorBody "workflow_failed" "product_name is required in payload" } ∧
    (executeWorkflowHandler (Scenario.withTrigger Scenario.envPlmDown Scenario.trigger)
        Scenario.svc "" Scenario.world).1
      = { status := 500,
          body := .errorBody "workflow_failed"
            ("PLM consultation failed: " ++
              (GoError.errorf "PLM service returned 404: product not found").Error) } ∧
    (executeWorkflowHandler (Scenario.withTrigger Scenario.envDocgenDown Scenario.trigger)
        Scenario.svc "" Scenario.world).1
      = { status := 500,
          body := .errorBody "workflow_failed"
            ("DocGen command failed: " ++
              (GoError.errorf "DocGen service returned 500: render failed").Error) } ∧
    (executeWorkflowHandler (Scenario.withTrigger Scenario.env Scenario.trigger)
        Scenario.svc "" Scenario.world).1
      = { status := 200,
          body := .workflow
            { Status := "success",
              WorkflowID := "wf-" ++ toString
                ((Scenario.withTrigger Scenario.env Scenario.trigger).now
                  Scenario.world.ticks).Unix,
              Message := "Workflow completed successfully",
              DocumentURL := Scenario.rendered.URL } } :=
  ⟨(dispatcher_status (Scenario.withTrigger Scenario.env Scenario.triggerArchived)
      Scenario.svc "" Scenario.world Scenario.triggerArchived rfl).1 (by decide),
   ((dispatcher_status (Scenario.withTrigger Scenario.env Scenario.triggerNoName)
      Scenario.svc "" Scenario.world Scenario.triggerNoName rfl).2 rfl).1
      (fun P h => by
        have hnone : Scenario.triggerNoName.Payload.get "product_name" = none := rfl
        rw [hnone] at h
        cases h),
   (((dispatcher_status (Scenario.withTrigger Scenario.envPlmDown Scenario.trigger)
      Scenario.svc "" Scenario.world Scenario.trigger rfl).2 rfl).2 "WidgetX" rfl).1
      (.errorf "PLM service returned 404: product not found") rfl,
   ((((dispatcher_status (Scenario.withTrigger Scenario.envDocgenDown Scenario.trigger)
      Scenario.svc "" Scenario.world Scenario.trigger rfl).2 rfl).2 "WidgetX" rfl).2
      Scenario.enriched rfl).1 (.errorf "DocGen service returned 500: render failed") rfl,
   ((((dispatcher_status (Scenario.withTrigger Scenario.env Scenario.trigger)
      Scenario.svc "" Scenario.world Scenario.trigger rfl).2 rfl).2 "WidgetX" rfl).2
      Scenario.enriched rfl).2 Scenario.rendered rfl⟩

/-- C11, the claim as stated fails: a payload without product name and an
unknown trigger event are both answered with status 500, which is not a 4xx
status. -/
theorem dispatcher_status_counterexample :
    (executeWorkflowHandler (Scenario.withTrigger Scenario.env Scenario.triggerNoName)
        Scenario.svc "" Scenario.world).1
      = { status := 500,
          body := .errorBody "workflow_failed" "product_name is required in payload" } ∧
    ¬ (400 ≤ (executeWorkflowHandler
          (Scenario.withTrigger Scenario.env Scenario.triggerNoName)
          Scenario.svc "" Scenario.world).1.status ∧
        (executeWorkflowHandler (Scenario.withTrigger Scenario.env Scenario.triggerNoName)
          Scenario.svc "" Scenario.world).1.status < 500) ∧
    (executeWorkflowHandler (Scenario.withTrigger Scenario.env Scenario.triggerArchived)
        Scenario.svc "" Scenario.world).1
      = { status := 500,
          body := .errorBody "workflow_failed" "unknown trigger event: schematic.archived" } ∧
    ¬ (400 ≤ (executeWorkflowHandler
          (Scenario.withTrigger Scenario.env Scenario.triggerArchived)
          Scenario.svc "" Scenario.world).1.status ∧
        (executeWorkflowHandler (Scenario.withTrigger Scenario.env Scenario.triggerArchived)
          Scenario.svc "" Scenario.world).1.status < 500) := by
  have h1 : (executeWorkflowHandler (Scenario.withTrigger Scenario.env Scenario.triggerNoName)
      Scenario.svc "" Scenario.world).1
      = { status := 500,
          body := .errorBody "workflow_failed" "product_name is required in payload" } := rfl
  have h2 : (executeWorkflowHandler
      (Scenario.withTrigger Scenario.env Scenario.triggerArchived)
      Scenario.svc "" Scenario.world).1
      = { status := 500,
          body := .errorBody "workflow_failed" "unknown trigger event: schematic.archived" } :=
    rfl
  refine ⟨h1, ?_, h2, ?_⟩
  · rw [h1]
    decide
  · rw [h2]
    decide

/-! ## The workflow ID -/

/-- The workflow ID is made of the seconds of the clock reading alone. -/
theorem generateWorkflowID_seconds (env : Env) (w1 w2 : World)
    (h : (env.now w1.ticks).sec = (env.now w2.ticks).sec) :
    (generateWorkflowID env w1).1 = (generateWorkflowID env w2).1 := by
  simp [generateWorkflowID, timeNow, Time.Unix, h]

/-- C12 fails on the code: two dispatches whose clock readings differ but
fall within the same second get the same workflow ID. -/
theorem workflow_id_collision :
    Scenario.envSameSecond.now Scenario.world.ticks
      ≠ Scenario.envSameSecond.now
          (generateWorkflowID Scenario.envSameSecond Scenario.world).2.ticks ∧
    (generateWorkflowID Scenario.envSameSecond Scenario.world).1 = "wf-1700000000" ∧
    (generateWorkflowID Scenario.envSameSecond
        (generateWorkflowID Scenario.envSameSecond Scenario.world).2).1 = "wf-1700000000" := by
  refine ⟨?_, rfl, rfl⟩
  have h0 : Scenario.envSameSecond.now Scenario.world.ticks
      = { sec := 1700000000, nsec := 100000000 } := rfl
  have h1 : Scenario.envSameSecond.now
      (generateWorkflowID Scenario.envSameSecond Scenario.world).2.ticks
      = { sec := 1700000000, nsec := 200000000 } := rfl
  rw [h0, h1]
  decide

/-! ## The collaborator clients -/

/-- C13, amended: for each collaborator client and every reply with a status
and a body: when the status is any other than 200, the other success statuses
such as 201 included, the client returns no response and an error whose text
holds the status code and the body; when the status is 200 and the body does
not decode, it returns the decode error, wrapped; when the status is 200 and
the body decodes, it returns the decoded response and no error. -/
theorem client_reply_handling (env : Env) (s : BPOService) (w : World) :
    (∀ template code body,
      env.post w.calls (s.plmServiceURL ++ "/enrich-plan") (.enrich template)
          = .response code body →
        (code ≠ 200 →
          (consultPLM env s template w).1
            = .error (.errorf ("PLM service returned " ++ toString code ++ ": " ++ body))) ∧
        (code = 200 →
          (∀ err, env.decodeEnriched body = .error err →
            (consultPLM env s template w).1
              = .error (.wrapf "failed to decode PLM response: " err)) ∧
          (∀ enriched, env.decodeEnriched body = .ok enriched →
            (consultPLM env s template w).1 = .ok enriched))) ∧
    (∀ plan code body,
      env.post w.calls (s.docgenServiceURL ++ "/generate") (.generate plan)
          = .response code body →
        (code ≠ 200 →
          (commandDocGen env s plan w).1
            = .error (.errorf ("DocGen service returned " ++ toString code ++ ": " ++ body))) ∧
        (code = 200 →
          (∀ err, env.decodeDocGen body = .error err →
            (commandDocGen env s plan w).1
              = .error (.wrapf "failed to decode DocGen response: " err)) ∧
          (∀ response, env.decodeDocGen body = .ok response →
            (commandDocGen env s plan w).1 = .ok response))) := by
  constructor
  · intro template code body hpost
    refine ⟨fun hcode => ?_, fun hcode => ⟨fun err hdec => ?_, fun enriched hdec => ?_⟩⟩
    · simp [consultPLM, jsonMarshal, httpPost, hpost, StatusOK, hcode]
    · simp [consultPLM, jsonMarshal, httpPost, hpost, StatusOK, hcode, hdec]
    · simp [consultPLM, jsonMarshal, httpPost, hpost, StatusOK, hcode, hdec]
  · intro plan code body hpost
    refine ⟨fun hcode => ?_, fun hcode => ⟨fun err hdec => ?_, fun response hdec => ?_⟩⟩
    · simp [commandDocGen, jsonMarshal, httpPost, hpost, StatusOK, hcode]
    · simp [commandDocGen, jsonMarshal, httpPost, hpost, StatusOK, hcode, hdec]
    · simp [commandDocGen, jsonMarshal, httpPost, hpost, StatusOK, hcode, hdec]

/-- C13 at a PLM collaborator that answers 404 and at a DocGen collaborator
that answers 200 with a body that decodes. -/
theorem client_reply_handling_witness :
    (consultPLM Scenario.envPlmDown Scenario.svc (templateFor "WidgetX") Scenario.world).1
      = .error (.errorf
          ("PLM service returned " ++ toString 404 ++ ": " ++ "product not found")) ∧
    (commandDocGen Scenario.env Scenario.svc
        (buildDocumentPlan "WidgetX" "B" Scenario.enriched) Scenario.world).1
      = .ok Scenario.rendered :=
  ⟨((client_reply_handling Scenario.envPlmDown Scenario.svc Scenario.world).1
      (templateFor "WidgetX") 404 "product not found" rfl).1 (by decide),
   (((client_reply_handling Scenario.env Scenario.svc Scenario.world).2
      (buildDocumentPlan "WidgetX" "B" Scenario.enriched) 200 "rendered" rfl).2 rfl).2
      Scenario.rendered rfl⟩

/-- C13, the claim as stated fails: a reply with the success status 201 and
a body that decodes is not returned as the decoded response.  Both clients
return the error made for a failed call, since they accept the status 200
alone. -/
theorem client_reply_counterexample :
    Scenario.envCreated.post Scenario.world.calls
        (Scenario.svc.plmServiceURL ++ "/enrich-plan") (.enrich (templateFor "WidgetX"))
      = .response 201 "enriched" ∧
    Scenario.envCreated.decodeEnriched "enriched" = .ok Scenario.enriched ∧
    (consultPLM Scenario.envCreated Scenario.svc (templateFor "WidgetX") Scenario.world).1
      = .error (.errorf "PLM service returned 201: enriched") ∧
    (consultPLM Scenario.envCreated Scenario.svc (templateFor "WidgetX") Scenario.world).1
      ≠ .ok Scenario.enriched ∧
    Scenario.envCreated.post Scenario.world.calls
        (Scenario.svc.docgenServiceURL ++ "/generate")
        (.generate (buildDocumentPlan "WidgetX" "B" Scenario.enriched))
      = .response 201 "rendered" ∧
    Scenario.envCreated.decodeDocGen "rendered" = .ok Scenario.rendered ∧
    (commandDocGen Scenario.envCreated Scenario.svc
        (buildDocumentPlan "WidgetX" "B" Scenario.enriched) Scenario.world).1
      = .error (.errorf "DocGen service returned 201: rendered") ∧
    (commandDocGen Scenario.envCreated Scenario.svc
        (buildDocumentPlan "WidgetX" "B" Scenario.enriched) Scenario.world).1
      ≠ .ok Scenario.rendered := by
  have hplm : (consultPLM Scenario.envCreated Scenario.svc (templateFor "WidgetX")
      Scenario.world).1 = .error (.errorf "PLM service returned 201: enriched") := rfl
  have hdoc : (commandDocGen Scenario.envCreated Scenario.svc
      (buildDocumentPlan "WidgetX" "B" Scenario.enriched) Scenario.world).1
      = .error (.errorf "DocGen service returned 201: rendered") := rfl
  refine ⟨rfl, rfl, hplm, ?_, rfl, rfl, hdoc, ?_⟩
  · rw [hplm]
    intro h
    cases h
  · rw [hdoc]
    intro h
    cases h

end BPO

/-! # The render mock and the engine's plan -/

namespace DocGen

open BPO (Time)

/-- An instance of a known type with props adds no error. -/
theorem validateInstance_known (now : Time) (inst : BPO.ComponentInstance)
    (hc : inst.Component = "DocumentTitle" ∨ inst.Component = "TestBlock")
    (hp : inst.Props ≠ []) (errors : List ValidationError) (i : Nat) :
    validateInstance (NewDocGenService now) errors i (bindInstance inst) = errors := by
  have hlen : inst.Props.length ≠ 0 := by
    intro h
    exact hp (List.length_eq_zero.mp h)
  rcases hc with hc | hc <;>
    simp [validateInstance, NewDocGenService, bindInstance, ComponentInstance.Component,
      ComponentInstance.Props, hc, hlen]

/-- The loop of validatePlan over instances that add no error leaves the
errors as they are. -/
theorem foldl_validate_ok (s : DocGenService) (xs : List ComponentInstance)
    (h : ∀ c ∈ xs, ∀ errors i, validateInstance s errors i c = errors)
    (n : Nat) (errors : List ValidationError) :
    (xs.enumFrom n).foldl (fun errors it => validateInstance s errors it.1 it.2) errors
      = errors := by
  induction xs generalizing n with
  | nil => rfl
  | cons c rest ih =>
    simp only [List.enumFrom_cons, List.foldl_cons]
    rw [h c (List.mem_cons_self c rest)]
    exact ih (fun c' hc' => h c' (List.mem_cons_of_mem c hc')) (n + 1)

/-- The plan of step 4 is not empty and passes validatePlan. -/
theorem buildDocumentPlan_valid (now : Time) (P R : String) (enriched : BPO.EnrichedPlan) :
    (BPO.buildDocumentPlan P R enriched).Body ≠ [] ∧
    validatePlan (NewDocGenService now) (bindPlan (BPO.buildDocumentPlan P R enriched))
      = (true, []) := by
  rw [BPO.buildDocumentPlan_eq]
  refine ⟨by simp, ?_⟩
  unfold validatePlan bindPlan
  simp only [List.enum]
  rw [foldl_validate_ok]
  · rfl
  · intro c hc errors i
    simp only [List.map_cons, List.map_map, List.mem_cons, List.mem_map,
      Function.comp_apply] at hc
    rcases hc with hc | ⟨comp, _, hc⟩
    · rw [hc]
      exact validateInstance_known now _ (Or.inl rfl) (by simp [BPO.titleInstance]) errors i
    · rw [← hc]
      exact validateInstance_known now _ (Or.inr rfl) (by simp [BPO.testBlock]) errors i

/-- C15: the document plan the engine sends to the render collaborator has a
body that is not empty, and validatePlan of the render mock, on the plan as
decoded from the engine's JSON, returns valid = true and no error. -/
theorem engine_plan_accepted (env : BPO.Env) (s : BPO.BPOService) (workflowID : String)
    (payload : BPO.GoMap) (w : BPO.World) (P : String) (enriched : BPO.EnrichedPlan)
    (now : Time)
    (hP : payload.get "product_name" = some (.str P))
    (hplm : (BPO.consultPLM env s (BPO.templateFor P) w).1 = .ok enriched) :
    ∃ plan : BPO.DocumentPlan,
      (BPO.executeSchematicReleasedWorkflow env s workflowID payload w).2.calls
        = w.calls ++ [BPO.plmCall s (BPO.templateFor P), BPO.docgenCall s plan] ∧
      plan.Body ≠ [] ∧
      (bindPlan plan).Body ≠ [] ∧
      validatePlan (NewDocGenService now) (bindPlan plan) = (true, []) := by
  refine ⟨BPO.buildDocumentPlan P ((payload.getString "revision").getD "A") enriched,
    BPO.exec_calls_enriched env s workflowID payload w P enriched
      (BPO.getString_of_get payload _ P hP) hplm,
    (buildDocumentPlan_valid now P _ enriched).1, ?_,
    (buildDocumentPlan_valid now P _ enriched).2⟩
  simp [bindPlan, BPO.buildDocumentPlan_eq]

/-- C15 at the scenario. -/
theorem engine_plan_accepted_witness :
    ∃ plan : BPO.DocumentPlan,
      (BPO.executeSchematicReleasedWorkflow BPO.Scenario.env BPO.Scenario.svc "wf-1700000000"
          BPO.Scenario.payload BPO.Scenario.world).2.calls
        = BPO.Scenario.world.calls ++
            [BPO.plmCall BPO.Scenario.svc (BPO.templateFor "WidgetX"),
             BPO.docgenCall BPO.Scenario.svc plan] ∧
      plan.Body ≠ [] ∧
      (bindPlan plan).Body ≠ [] ∧
      validatePlan (NewDocGenService { sec := 1700000000, nsec := 0 }) (bindPlan plan)
        = (true, []) :=
  engine_plan_accepted BPO.Scenario.env BPO.Scenario.svc "wf-1700000000"
    BPO.Scenario.payload BPO.Scenario.world "WidgetX" BPO.Scenario.enriched
    { sec := 1700000000, nsec := 0 } rfl rfl

end DocGen

/-! # The enrichment of the PLM mock -/

namespace PLM

/-- Filling a slice index by index writes the image of each element at its
place. -/
theorem foldl_set_enumFrom (f : ComponentTemplate → EnrichedComponent)
    (xs : List ComponentTemplate) (pre suf : List EnrichedComponent) (product : String)
    (hlen : suf.length = xs.length) :
    (xs.enumFrom pre.length).foldl
        (fun (enriched : EnrichedPlan) it =>
          { enriched with Components := enriched.Components.set it.1 (f it.2) })
        { Product := product, Components := pre ++ suf }
      = { Product := product, Components := pre ++ xs.map f } := by
  induction xs generalizing pre suf with
  | nil =>
    cases suf with
    | nil => rfl
    | cons b rest => simp at hlen
  | cons x rest ih =>
    cases suf with
    | nil => simp at hlen
    | cons b suf' =>
      simp only [List.length_cons, Nat.add_right_cancel_iff] at hlen
      simp only [List.enumFrom_cons, List.foldl_cons, List.map_cons]
      have hset : (pre ++ b :: suf').set pre.length (f x) = (pre ++ [f x]) ++ suf' := by
        simp
      rw [hset]
      have := ih (pre ++ [f x]) suf' hlen
      simp only [List.length_append, List.length_singleton] at this
      rw [this]
      simp

theorem enrichPlan_eq (s : PLMService) (template : TemplatePlan) (product : PLMProduct)
    (hfound : findProduct s template.Product = .ok product) :
    enrichPlan s template
      = .ok { Product := template.Product
              Components := template.Components.map (enrichComponent product) } := by
  unfold enrichPlan
  simp only [hfound, List.enum]
  have h := foldl_set_enumFrom (enrichComponent product) template.Components []
    (List.replicate template.Components.length { Name := "", Voltage := "" })
    template.Product (by simp)
  simp only [List.length_nil, List.nil_append] at h
  rw [h]


/-- What enrichPlan guarantees for a product that is found: the product name
and the names of the components, in order, are those of the template; and
every voltage is resolved when the default voltage of the product is. -/
theorem enrichPlan_found (s : PLMService) (template : TemplatePlan) (product : PLMProduct)
    (hfound : findProduct s template.Product = .ok product) :
    ∃ plan, enrichPlan s template = .ok plan ∧
      plan.Product = template.Product ∧
      plan.Components.length = template.Components.length ∧
      plan.Components.map (fun c => c.Name) = template.Components.map (fun c => c.Name) ∧
      (product.Voltage ≠ "UNRESOLVED" ∧ product.Voltage ≠ "" →
        ∀ c ∈ plan.Components, c.Voltage ≠ "UNRESOLVED" ∧ c.Voltage ≠ "") := by
  refine ⟨_, enrichPlan_eq s template product hfound, rfl, by simp, ?_, ?_⟩
  · simp [enrichComponent, Function.comp_def]
  · intro hdefault c hc
    simp only [List.mem_map] at hc
    obtain ⟨t, _, rfl⟩ := hc
    unfold enrichComponent
    simp only
    split_ifs with hv
    · exact hdefault
    · exact ⟨fun h => hv (Or.inl h), fun h => hv (Or.inr h)⟩

/-- C14 fails on the code: for a product that is found but whose default
voltage is empty, or is the sentinel itself, the enriched component keeps an
empty voltage, or the sentinel "UNRESOLVED". -/
theorem enrichPlan_sentinel_survives :
    enrichPlan { dataPath := "/app/data/plm-data.json", data := Scenario.dataNoDefault }
        Scenario.template
      = .ok { Product := "WidgetX",
              Components := [{ Name := "PowerTest", Voltage := "" }] } ∧
    enrichPlan { dataPath := "/app/data/plm-data.json", data := Scenario.dataSentinelDefault }
        Scenario.template
      = .ok { Product := "WidgetX",
              Components := [{ Name := "PowerTest", Voltage := "UNRESOLVED" }] } :=
  ⟨rfl, rfl⟩

end PLM
end Crosscut
